import Mathlib

/-!
A shallow embedding of the VRBLL chat relay core: `src/wsServer.ts` and
`src/session.ts`, together with the message store it imports.  Times are
naturals (milliseconds, as produced by `Date.now()`), JS `Map`s are
association lists with the first binding authoritative, and frames sent on
a socket are accumulated in a per-connection `sent` list.
-/

namespace Vrbll

/-- A dynamically typed field value of a parsed frame: either a string or
some other JS value, of which only the truthiness matters to the checks the
server performs. -/
inductive JVal where
  | str (s : String)
  | other (truthy : Bool)
deriving DecidableEq

/-- A parsed inbound frame (the object `JSON.parse` yields), restricted to
the three properties the server reads.  `none` models an absent property
(`undefined`). -/
structure InMsg where
  type : Option JVal
  username : Option JVal
  content : Option JVal
deriving DecidableEq

/-- The check of wsServer.ts line 38, `!msg.type || typeof msg.type !== 'string'`:
the field passes iff it is a truthy (hence non-empty) string; returns it. -/
def typeField : Option JVal → Option String
  | some (.str s) => if s = "" then none else some s
  | _ => none

/-- The check of wsServer.ts line 47,
`!msg.username || typeof msg.username !== 'string' || msg.username.length < 2`. -/
def validUsername : Option JVal → Option String
  | some (.str u) => if u = "" ∨ u.length < 2 then none else some u
  | _ => none

/-- The check of wsServer.ts line 71,
`!msg.content || typeof msg.content !== 'string' || msg.content.length === 0`. -/
def validContent : Option JVal → Option String
  | some (.str s) => if s = "" then none else some s
  | _ => none

/-- session.ts lines 4-8. -/
structure Session where
  id : String
  username : String
  connectedAt : Nat
deriving DecidableEq

/-- The ChatMessage record built at wsServer.ts lines 76-81 (the JS field
`from` is spelled `from_` here because `from` is a reserved word). -/
structure ChatMessage where
  id : String
  from_ : String
  content : String
  timestamp : Nat
deriving DecidableEq

/-- JS `Map.prototype.get` on an association list (a JS `Map` never holds a
duplicate key, so the first binding is the binding). -/
def mapGet {β : Type} : List (String × β) → String → Option β
  | [], _ => none
  | (k', v) :: rest, k => if k' = k then some v else mapGet rest k

/-- JS `Map.prototype.set`: overwrite in place when the key is present,
otherwise append. -/
def mapSet {β : Type} : List (String × β) → String → β → List (String × β)
  | [], k, v => [(k, v)]
  | (k', v') :: rest, k, v =>
    if k' = k then (k, v) :: rest else (k', v') :: mapSet rest k v

/-- JS `Map.prototype.delete`. -/
def mapDelete {β : Type} : List (String × β) → String → List (String × β)
  | [], _ => []
  | (k', v') :: rest, k => if k' = k then rest else (k', v') :: mapDelete rest k

/-- session.ts lines 12-16; the module-level `sessions` map is passed and
returned explicitly, and `Date.now()` is the `now` argument. -/
def createSession (sessions : List (String × Session)) (id username : String)
    (now : Nat) : List (String × Session) :=
  mapSet sessions id ⟨id, username, now⟩

/-- session.ts lines 18-20. -/
def getSession (sessions : List (String × Session)) (id : String) : Option Session :=
  mapGet sessions id

/-- session.ts lines 22-24. -/
def removeSession (sessions : List (String × Session)) (id : String) :
    List (String × Session) :=
  mapDelete sessions id

/-- Modelled from the spec: `src/messageStore.ts` is not among the sources
(only its unit test and its importer `wsServer.ts` are).  Per §4.4 the store
is an append-only log in server-acceptance order; `storeMessage` adds to the
tail. -/
def storeMessage (messages : List ChatMessage) (m : ChatMessage) :
    List ChatMessage :=
  messages ++ [m]

/-- Modelled from the spec: the read of the whole log, oldest first (the
caller at wsServer.ts line 31 takes `.slice(-50)` of it itself). -/
def getMessages (messages : List ChatMessage) : List ChatMessage := messages

/-- wsServer.ts line 11. -/
def RATE_LIMIT_WINDOW : Nat := 5000

/-- wsServer.ts line 12. -/
def RATE_LIMIT_MAX : Nat := 10

/-- The per-session rate-limit record of wsServer.ts line 13:
`{ count: number; last: number }`. -/
structure RateLimit where
  count : Nat
  last : Nat
deriving DecidableEq

/-- An outbound frame, as serialized by the server. -/
inductive Frame where
  | error (e : String)
  | welcome (sessionId : String)
  | presence (event : String) (username : String)
  | history (messages : List ChatMessage)
  | message (m : ChatMessage)
deriving DecidableEq

/-- One client connection: its identity, whether its transport is in the
OPEN ready-state, the session id the closure variable `sessionId` of
wsServer.ts line 18 holds, and the frames sent to it so far. -/
structure Conn where
  cid : Nat
  isOpen : Bool
  sessionId : Option String
  sent : List Frame
deriving DecidableEq

/-- The whole server state: the session registry, the rate-limit map of
wsServer.ts line 13, the message store, and the connection set. -/
structure ServerState where
  sessions : List (String × Session)
  rateLimitMap : List (String × RateLimit)
  messages : List ChatMessage
  conns : List Conn
deriving DecidableEq

/-- `ws.send` to one connection: the frame is appended to that connection's
`sent` log. -/
def sendTo (st : ServerState) (cid : Nat) (f : Frame) : ServerState :=
  { st with conns := st.conns.map fun c =>
      if c.cid = cid then { c with sent := c.sent ++ [f] } else c }

/-- wsServer.ts lines 21-27: deliver to every client whose `readyState` is
`OPEN`; closed clients are skipped without error. -/
def broadcast (st : ServerState) (f : Frame) : ServerState :=
  { st with conns := st.conns.map fun c =>
      if c.isOpen then { c with sent := c.sent ++ [f] } else c }

/-- `Array.prototype.slice(-n)`: the last `n` elements (all of them when the
array is shorter). -/
def sliceLast (l : List ChatMessage) (n : Nat) : List ChatMessage :=
  l.drop (l.length - n)

/-- wsServer.ts lines 30-32: send the last 50 stored messages. -/
def sendHistory (st : ServerState) (cid : Nat) : ServerState :=
  sendTo st cid (.history (sliceLast (getMessages st.messages) 50))

/-- wsServer.ts lines 60-67: fetch or lazily create the session's window
state, reset it when strictly more than `RATE_LIMIT_WINDOW` ms have passed
since `last`, increment the counter, and report whether the message is
allowed (line 67 rejects when `rl.count > RATE_LIMIT_MAX`). -/
def rateCheck (prev : Option RateLimit) (now : Nat) : RateLimit × Bool :=
  let rl := prev.getD ⟨0, now⟩
  let rl := if now - rl.last > RATE_LIMIT_WINDOW then (⟨0, now⟩ : RateLimit) else rl
  let rl : RateLimit := ⟨rl.count + 1, rl.last⟩
  (rl, decide (rl.count ≤ RATE_LIMIT_MAX))

/-- wsServer.ts lines 58-83: the `message` branch, for a connection whose
bound session id is `sid`.  Rate limiting runs first, then content
validation, then the store-and-broadcast. -/
def handleChat (st : ServerState) (cid : Nat) (sid : String)
    (content : Option JVal) (now : Nat) (uuid : String) : ServerState :=
  let rc := rateCheck (mapGet st.rateLimitMap sid) now
  let st1 : ServerState := { st with rateLimitMap := mapSet st.rateLimitMap sid rc.1 }
  if rc.2 = false then sendTo st1 cid (.error "Rate limit exceeded")
  else
    match validContent content with
    | none => sendTo st1 cid (.error "Empty message")
    | some body =>
      let user := ((getSession st1.sessions sid).map Session.username).getD "unknown"
      let chatMsg : ChatMessage := ⟨uuid, user, body, now⟩
      let st2 : ServerState := { st1 with messages := storeMessage st1.messages chatMsg }
      broadcast st2 (.message chatMsg)

/-- wsServer.ts lines 51-56: the successful `join` path, with `u` the
validated username and `uuid` the value `uuidv4()` returns. -/
def handleJoin (st : ServerState) (cid : Nat) (u : String) (now : Nat)
    (uuid : String) : ServerState :=
  let st1 : ServerState := { st with
    sessions := createSession st.sessions uuid u now,
    conns := st.conns.map fun c =>
      if c.cid = cid then { c with sessionId := some uuid } else c }
  let st2 := sendTo st1 cid (.welcome uuid)
  let st3 := broadcast st2 (.presence "join" u)
  sendHistory st3 cid

/-- wsServer.ts lines 34-90: the `ws.on('message')` dispatcher for the
connection `cid`.  `parsed = none` models a frame `JSON.parse` throws on;
`uuid` is the value `uuidv4()` would produce during this dispatch. -/
def handleFrame (st : ServerState) (cid : Nat) (parsed : Option InMsg)
    (now : Nat) (uuid : String) : ServerState :=
  match st.conns.find? (fun c => c.cid == cid) with
  | none => st
  | some c =>
    match parsed with
    | none => sendTo st cid (.error "Invalid message format")
    | some m =>
      match typeField m.type with
      | none => sendTo st cid (.error "Missing or invalid type")
      | some t =>
        if t = "join" then
          if c.sessionId.isSome then sendTo st cid (.error "Already joined")
          else
            match validUsername m.username with
            | none => sendTo st cid (.error "Invalid username")
            | some u => handleJoin st cid u now uuid
        else if t = "message" then
          match c.sessionId with
          | some sid => handleChat st cid sid m.content now uuid
          | none => sendTo st cid (.error "Unknown or unauthorized event")
        else sendTo st cid (.error "Unknown or unauthorized event")

/-- wsServer.ts lines 92-98: the close handler.  The transport leaves the
server's client set; if a session id was bound, the session is removed and,
when the recorded username is truthy, a leave presence event is broadcast.
Note that the rate-limit map is not touched. -/
def handleClose (st : ServerState) (cid : Nat) : ServerState :=
  match st.conns.find? (fun c => c.cid == cid) with
  | none => st
  | some c =>
    let st1 : ServerState := { st with conns := st.conns.filter fun x => !(x.cid == cid) }
    match c.sessionId with
    | none => st1
    | some sid =>
      let user := (getSession st1.sessions sid).map Session.username
      let st2 : ServerState := { st1 with sessions := removeSession st1.sessions sid }
      match user with
      | some u => if u = "" then st2 else broadcast st2 (.presence "leave" u)
      | none => st2

/-- wss.on('connection') at wsServer.ts line 17: a fresh connection starts
open, unbound, with nothing sent. -/
def addConn (st : ServerState) (cid : Nat) : ServerState :=
  { st with conns := st.conns ++ [⟨cid, true, none, []⟩] }

/-- An external stimulus the server reacts to. -/
inductive Event where
  | connect (cid : Nat)
  | frame (cid : Nat) (parsed : Option InMsg) (now : Nat) (uuid : String)
  | close (cid : Nat)
deriving DecidableEq

/-- One dispatch step of the single-threaded event loop. -/
def stepServer (st : ServerState) : Event → ServerState
  | .connect cid => addConn st cid
  | .frame cid p now uuid => handleFrame st cid p now uuid
  | .close cid => handleClose st cid

/-- The state of a freshly started server. -/
def initialState : ServerState := ⟨[], [], [], []⟩

/-- Reachability under the event loop.  A new connection carries a fresh
transport identity, and `uuidv4()` never returns an id already registered
(uniqueness of the generator is an assumption of §4.2). -/
inductive Reachable : ServerState → Prop where
  | init : Reachable initialState
  | connect {st : ServerState} {cid : Nat} : Reachable st →
      (∀ c ∈ st.conns, c.cid ≠ cid) → Reachable (addConn st cid)
  | frame {st : ServerState} {cid : Nat} {p : Option InMsg} {now : Nat}
      {uuid : String} : Reachable st → mapGet st.sessions uuid = none →
      Reachable (handleFrame st cid p now uuid)
  | close {st : ServerState} {cid : Nat} : Reachable st →
      Reachable (handleClose st cid)

/-- The admission rule exactly as claim C5 states it: reset when
`now − windowStart ≥ windowDurationMs` (so a check arriving exactly
`windowDurationMs` after `windowStart` starts a fresh window), then
increment, then allow iff the resulting count is at most the maximum. -/
def admitClaimed (prev : Option RateLimit) (now : Nat) : RateLimit × Bool :=
  let st0 : RateLimit :=
    match prev with
    | none => ⟨0, now⟩
    | some rl => if now - rl.last ≥ RATE_LIMIT_WINDOW then ⟨0, now⟩ else rl
  let st1 : RateLimit := ⟨st0.count + 1, st0.last⟩
  (st1, decide (st1.count ≤ RATE_LIMIT_MAX))

/-- The admission rule as amended: the reset happens only when strictly more
than `windowDurationMs` ms have passed since `windowStart`; a check arriving
exactly `windowDurationMs` after `windowStart` still lands in the old
window. -/
def admitAmended (prev : Option RateLimit) (now : Nat) : RateLimit × Bool :=
  let st0 : RateLimit :=
    match prev with
    | none => ⟨0, now⟩
    | some rl => if now - rl.last > RATE_LIMIT_WINDOW then ⟨0, now⟩ else rl
  let st1 : RateLimit := ⟨st0.count + 1, st0.last⟩
  (st1, decide (st1.count ≤ RATE_LIMIT_MAX))

/-- A join frame for the display name "alice". -/
def joinAlice : InMsg := ⟨some (.str "join"), some (.str "alice"), none⟩

/-- A chat frame with the given body. -/
def chatBody (s : String) : InMsg := ⟨some (.str "message"), none, some (.str s)⟩

/-- The server right after one connection arrived and joined as "alice". -/
def aliceJoined : ServerState :=
  handleFrame (addConn initialState 0) 0 (some joinAlice) 0 "s1"

/-- One chat event on connection 0 with body "x" at time 1 (uuid "m"). -/
def chatEvent (st : ServerState) : ServerState :=
  handleFrame st 0 (some (chatBody "x")) 1 "m"

/-- `k` successive message events from connection `cid`, all carrying the
same body and timestamp — a burst inside one rate window. -/
def repeatChat (cid : Nat) (body : String) (now : Nat) (uuid : String) :
    Nat → ServerState → ServerState
  | 0, st => st
  | k+1, st =>
    repeatChat cid body now uuid k
      (handleFrame st cid (some (chatBody body)) now uuid)

/-- The trace of claim C7's counterexample: connect, join as alice, one chat
message (which lazily creates the rate-limit entry), then disconnect. -/
def closedState : ServerState := handleClose (chatEvent aliceJoined) 0

/-- The state reached by claim C4's counterexample trace: connect, join as
"alice", then eleven message events inside one window. -/
def burstLiteral : ServerState :=
  ⟨[("s1", ⟨"s1", "alice", 0⟩)], [("s1", ⟨11, 1⟩)],
   [⟨"m", "alice", "x", 1⟩, ⟨"m", "alice", "x", 1⟩, ⟨"m", "alice", "x", 1⟩, ⟨"m", "alice", "x", 1⟩, ⟨"m", "alice", "x", 1⟩, ⟨"m", "alice", "x", 1⟩, ⟨"m", "alice", "x", 1⟩, ⟨"m", "alice", "x", 1⟩, ⟨"m", "alice", "x", 1⟩, ⟨"m", "alice", "x", 1⟩],
   [⟨0, true, some "s1",
     [.welcome "s1",
         .presence "join" "alice",
         .history [],
         .message ⟨"m", "alice", "x", 1⟩,
         .message ⟨"m", "alice", "x", 1⟩,
         .message ⟨"m", "alice", "x", 1⟩,
         .message ⟨"m", "alice", "x", 1⟩,
         .message ⟨"m", "alice", "x", 1⟩,
         .message ⟨"m", "alice", "x", 1⟩,
         .message ⟨"m", "alice", "x", 1⟩,
         .message ⟨"m", "alice", "x", 1⟩,
         .message ⟨"m", "alice", "x", 1⟩,
         .message ⟨"m", "alice", "x", 1⟩,
         .error "Rate limit exceeded"]⟩]⟩

/-- The before-state of claim C3's counterexample: one joined connection, no
rate-limit entry yet. -/
def c3Before : ServerState :=
  ⟨[("s1", ⟨"s1", "alice", 0⟩)], [], [], [⟨0, true, some "s1", []⟩]⟩

/-- The after-state of claim C3's counterexample: a message event whose
content property is absent. -/
def c3After : ServerState :=
  handleFrame c3Before 0 (some ⟨some (.str "message"), none, none⟩) 4 "m1"

/-- Every bound session id of a live connection is registered in the
session registry, with a username that passed join validation (length at
least 2). -/
def InvBound (st : ServerState) : Prop :=
  ∀ c ∈ st.conns, ∀ sid : String, c.sessionId = some sid →
    ∃ sess, getSession st.sessions sid = some sess ∧ 2 ≤ sess.username.length

/-- No session id is bound by two distinct live connections. -/
def InvUniqueSid (st : ServerState) : Prop :=
  ∀ c1 ∈ st.conns, ∀ c2 ∈ st.conns, ∀ sid : String,
    c1.sessionId = some sid → c2.sessionId = some sid → c1 = c2

/-- A connection identity occurs at most once in the connection set. -/
def InvUniqueCid (st : ServerState) : Prop :=
  ∀ c1 ∈ st.conns, ∀ c2 ∈ st.conns, c1.cid = c2.cid → c1 = c2

/-- The session-binding invariant of the server. -/
def Inv (st : ServerState) : Prop :=
  InvBound st ∧ InvUniqueSid st ∧ InvUniqueCid st

/-! ### Association-list lemmas -/

theorem mapGet_mapSet_self {β : Type} (m : List (String × β)) (k : String) (v : β) :
    mapGet (mapSet m k v) k = some v := by
  induction m with
  | nil => simp [mapGet, mapSet]
  | cons p rest ih =>
    obtain ⟨k', v'⟩ := p
    by_cases h : k' = k <;> simp [mapGet, mapSet, h, ih]

theorem mapGet_mapSet_ne {β : Type} (m : List (String × β)) {k k' : String}
    (h : k' ≠ k) (v : β) : mapGet (mapSet m k v) k' = mapGet m k' := by
  induction m with
  | nil => simp [mapGet, mapSet, Ne.symm h]
  | cons p rest ih =>
    obtain ⟨k'', v''⟩ := p
    by_cases h2 : k'' = k
    · subst h2
      simp [mapGet, mapSet, Ne.symm h]
    · by_cases h3 : k'' = k' <;> simp [mapGet, mapSet, h2, h3, h, ih]

theorem mapGet_mapDelete_ne {β : Type} (m : List (String × β)) {k k' : String}
    (h : k' ≠ k) : mapGet (mapDelete m k) k' = mapGet m k' := by
  induction m with
  | nil => simp [mapDelete]
  | cons p rest ih =>
    obtain ⟨k'', v''⟩ := p
    by_cases h2 : k'' = k
    · subst h2
      simp [mapGet, mapDelete, Ne.symm h]
    · by_cases h3 : k'' = k' <;> simp [mapGet, mapDelete, h2, h3, h, ih]

/-! ### Reduction helpers for the frame dispatcher -/

theorem handleFrame_message_eq_handleChat
    (st : ServerState) (cid : Nat) (c : Conn) (m : InMsg) (now : Nat)
    (uuid : String) (sid : String)
    (hfind : st.conns.find? (fun x => x.cid == cid) = some c)
    (hsid : c.sessionId = some sid)
    (hty : typeField m.type = some "message") :
    handleFrame st cid (some m) now uuid = handleChat st cid sid m.content now uuid := by
  unfold handleFrame
  rw [hfind]
  simp [hty, hsid]

theorem handleChat_rejected
    (st : ServerState) (cid : Nat) (sid : String) (content : Option JVal)
    (now : Nat) (uuid : String)
    (h : (rateCheck (mapGet st.rateLimitMap sid) now).2 = false) :
    handleChat st cid sid content now uuid
      = sendTo
          { st with
              rateLimitMap := mapSet st.rateLimitMap sid
                (rateCheck (mapGet st.rateLimitMap sid) now).1 }
          cid (.error "Rate limit exceeded") := by
  unfold handleChat
  simp [h]

theorem handleChat_empty
    (st : ServerState) (cid : Nat) (sid : String) (content : Option JVal)
    (now : Nat) (uuid : String)
    (h : (rateCheck (mapGet st.rateLimitMap sid) now).2 = true)
    (hc : validContent content = none) :
    handleChat st cid sid content now uuid
      = sendTo
          { st with
              rateLimitMap := mapSet st.rateLimitMap sid
                (rateCheck (mapGet st.rateLimitMap sid) now).1 }
          cid (.error "Empty message") := by
  unfold handleChat
  simp [h, hc]

theorem handleChat_admitted
    (st : ServerState) (cid : Nat) (sid : String) (content : Option JVal)
    (now : Nat) (uuid : String) (body : String)
    (h : (rateCheck (mapGet st.rateLimitMap sid) now).2 = true)
    (hc : validContent content = some body) :
    handleChat st cid sid content now uuid
      = broadcast
          { st with
              rateLimitMap := mapSet st.rateLimitMap sid
                (rateCheck (mapGet st.rateLimitMap sid) now).1,
              messages := storeMessage st.messages
                ⟨uuid, ((getSession st.sessions sid).map Session.username).getD "unknown",
                 body, now⟩ }
          (.message
            ⟨uuid, ((getSession st.sessions sid).map Session.username).getD "unknown",
             body, now⟩) := by
  unfold handleChat
  simp [h, hc]

theorem rateCheck_in_window (cnt lastT now : Nat)
    (h : ¬ now - lastT > RATE_LIMIT_WINDOW) :
    rateCheck (some ⟨cnt, lastT⟩) now
      = (⟨cnt + 1, lastT⟩, decide (cnt + 1 ≤ RATE_LIMIT_MAX)) := by
  unfold rateCheck
  simp [h]

theorem rateCheck_rolled (cnt lastT now : Nat)
    (h : now - lastT > RATE_LIMIT_WINDOW) :
    rateCheck (some ⟨cnt, lastT⟩) now = (⟨1, now⟩, true) := by
  unfold rateCheck
  simp [h, RATE_LIMIT_MAX]

theorem find?_cid_sendTo (st : ServerState) (cid cid' : Nat) (f : Frame) :
    (sendTo st cid f).conns.find? (fun x => x.cid == cid')
      = (st.conns.find? (fun x => x.cid == cid')).map
          (fun c => if c.cid = cid then { c with sent := c.sent ++ [f] } else c) := by
  have hp : ((fun x : Conn => x.cid == cid') ∘ fun c : Conn =>
      if c.cid = cid then { c with sent := c.sent ++ [f] } else c)
      = (fun x : Conn => x.cid == cid') := by
    funext x
    by_cases hx : x.cid = cid <;> simp [Function.comp, hx]
  show (st.conns.map _).find? _ = _
  rw [List.find?_map, hp]

theorem find?_cid_broadcast (st : ServerState) (cid' : Nat) (f : Frame) :
    (broadcast st f).conns.find? (fun x => x.cid == cid')
      = (st.conns.find? (fun x => x.cid == cid')).map
          (fun c => if c.isOpen then { c with sent := c.sent ++ [f] } else c) := by
  have hp : ((fun x : Conn => x.cid == cid') ∘ fun c : Conn =>
      if c.isOpen then { c with sent := c.sent ++ [f] } else c)
      = (fun x : Conn => x.cid == cid') := by
    funext x
    by_cases hx : x.isOpen <;> simp [Function.comp, hx]
  show (st.conns.map _).find? _ = _
  rw [List.find?_map, hp]

/-! ### C6: a second join is rejected and changes nothing -/

/-- C6: a connection that already holds a bound session id has any further
join event answered by an error frame "Already joined" sent to it alone; the
session registry, rate-limit map, message store and every other connection
are untouched, and no welcome, presence or history frame is emitted. -/
theorem second_join_rejected_no_state_change
    (st : ServerState) (cid : Nat) (c : Conn) (m : InMsg) (now : Nat)
    (uuid : String) (sid : String)
    (hfind : st.conns.find? (fun x => x.cid == cid) = some c)
    (hsid : c.sessionId = some sid)
    (hty : typeField m.type = some "join") :
    handleFrame st cid (some m) now uuid = sendTo st cid (.error "Already joined") ∧
    (handleFrame st cid (some m) now uuid).sessions = st.sessions ∧
    (handleFrame st cid (some m) now uuid).rateLimitMap = st.rateLimitMap ∧
    (handleFrame st cid (some m) now uuid).messages = st.messages ∧
    (handleFrame st cid (some m) now uuid).conns
      = st.conns.map (fun x =>
          if x.cid = cid then { x with sent := x.sent ++ [.error "Already joined"] }
          else x) := by
  have h1 : handleFrame st cid (some m) now uuid
      = sendTo st cid (.error "Already joined") := by
    unfold handleFrame
    rw [hfind]
    simp [hty, hsid]
  exact ⟨h1, by rw [h1]; rfl, by rw [h1]; rfl, by rw [h1]; rfl, by rw [h1]; rfl⟩

/-- Witness for C6 at a concrete state: one joined connection sends a second
join and only the error is appended. -/
theorem second_join_rejected_no_state_change_witness :
    handleFrame ⟨[("s1", ⟨"s1", "alice", 0⟩)], [], [],
        [⟨0, true, some "s1", []⟩]⟩ 0
        (some ⟨some (.str "join"), some (.str "bob"), none⟩) 7 "s9"
      = sendTo ⟨[("s1", ⟨"s1", "alice", 0⟩)], [], [],
          [⟨0, true, some "s1", []⟩]⟩ 0 (.error "Already joined") ∧
    (handleFrame ⟨[("s1", ⟨"s1", "alice", 0⟩)], [], [],
        [⟨0, true, some "s1", []⟩]⟩ 0
        (some ⟨some (.str "join"), some (.str "bob"), none⟩) 7 "s9").sessions
      = [("s1", ⟨"s1", "alice", 0⟩)] ∧
    (handleFrame ⟨[("s1", ⟨"s1", "alice", 0⟩)], [], [],
        [⟨0, true, some "s1", []⟩]⟩ 0
        (some ⟨some (.str "join"), some (.str "bob"), none⟩) 7 "s9").conns
      = [⟨0, true, some "s1", [.error "Already joined"]⟩] := by
  have h := second_join_rejected_no_state_change
    ⟨[("s1", ⟨"s1", "alice", 0⟩)], [], [], [⟨0, true, some "s1", []⟩]⟩ 0
    ⟨0, true, some "s1", []⟩
    ⟨some (.str "join"), some (.str "bob"), none⟩ 7 "s9" "s1"
    (by decide) rfl (by decide)
  exact ⟨h.1, h.2.1, by rw [h.1]; decide⟩

/-! ### C8: message before join -/

/-- C8: a connection that never successfully joined (no bound session id)
has any message event answered by the error frame "Unknown or unauthorized
event" sent to it alone; nothing is broadcast, nothing is appended to the
history store, and no other state changes. -/
theorem message_before_join_rejected
    (st : ServerState) (cid : Nat) (c : Conn) (m : InMsg) (now : Nat)
    (uuid : String)
    (hfind : st.conns.find? (fun x => x.cid == cid) = some c)
    (hsid : c.sessionId = none)
    (hty : typeField m.type = some "message") :
    handleFrame st cid (some m) now uuid
      = sendTo st cid (.error "Unknown or unauthorized event") ∧
    (handleFrame st cid (some m) now uuid).sessions = st.sessions ∧
    (handleFrame st cid (some m) now uuid).rateLimitMap = st.rateLimitMap ∧
    (handleFrame st cid (some m) now uuid).messages = st.messages ∧
    (handleFrame st cid (some m) now uuid).conns
      = st.conns.map (fun x =>
          if x.cid = cid then
            { x with sent := x.sent ++ [.error "Unknown or unauthorized event"] }
          else x) := by
  have h1 : handleFrame st cid (some m) now uuid
      = sendTo st cid (.error "Unknown or unauthorized event") := by
    unfold handleFrame
    rw [hfind]
    simp [hty, hsid]
  exact ⟨h1, by rw [h1]; rfl, by rw [h1]; rfl, by rw [h1]; rfl, by rw [h1]; rfl⟩

/-- Witness for C8: an unjoined connection sends a message; only the error
frame is appended to it. -/
theorem message_before_join_rejected_witness :
    handleFrame ⟨[], [], [], [⟨0, true, none, []⟩]⟩ 0
        (some ⟨some (.str "message"), none, some (.str "hi")⟩) 3 "m1"
      = sendTo ⟨[], [], [], [⟨0, true, none, []⟩]⟩ 0
          (.error "Unknown or unauthorized event") ∧
    (handleFrame ⟨[], [], [], [⟨0, true, none, []⟩]⟩ 0
        (some ⟨some (.str "message"), none, some (.str "hi")⟩) 3 "m1").conns
      = [⟨0, true, none, [.error "Unknown or unauthorized event"]⟩] := by
  have h := message_before_join_rejected ⟨[], [], [], [⟨0, true, none, []⟩]⟩ 0
    ⟨0, true, none, []⟩ ⟨some (.str "message"), none, some (.str "hi")⟩ 3 "m1"
    (by decide) rfl (by decide)
  exact ⟨h.1, by rw [h.1]; decide⟩

/-! ### C9: broadcast isolation -/

/-- C9: a broadcast delivers the event to every connection whose transport
is OPEN; a connection whose transport is already closed is skipped without
error and without affecting any other delivery — the connection set keeps
its size, every open member receives the frame, every closed member is
untouched. -/
theorem broadcast_delivers_despite_closed_conn
    (st : ServerState) (f : Frame) (c : Conn) (hc : c ∈ st.conns) :
    (broadcast st f).conns.length = st.conns.length ∧
    (broadcast st f).sessions = st.sessions ∧
    (broadcast st f).rateLimitMap = st.rateLimitMap ∧
    (broadcast st f).messages = st.messages ∧
    (c.isOpen = true →
      ({ c with sent := c.sent ++ [f] } : Conn) ∈ (broadcast st f).conns) ∧
    (c.isOpen = false → c ∈ (broadcast st f).conns) := by
  refine ⟨by simp [broadcast], rfl, rfl, rfl, ?_, ?_⟩
  · intro hopen
    have h := List.mem_map_of_mem
      (f := fun x : Conn => if x.isOpen then { x with sent := x.sent ++ [f] } else x) hc
    simpa [broadcast, hopen] using h
  · intro hclosed
    have h := List.mem_map_of_mem
      (f := fun x : Conn => if x.isOpen then { x with sent := x.sent ++ [f] } else x) hc
    simpa [broadcast, hclosed] using h

/-- Witness for C9: two open connections and one closed one; the frame
reaches both open ones, the closed one is untouched. -/
theorem broadcast_delivers_despite_closed_conn_witness :
    ((⟨0, true, none, [.error "x"]⟩ : Conn)
        ∈ (broadcast ⟨[], [], [], [⟨0, true, none, []⟩, ⟨1, false, none, []⟩,
            ⟨2, true, none, []⟩]⟩ (.error "x")).conns) ∧
    ((⟨2, true, none, [.error "x"]⟩ : Conn)
        ∈ (broadcast ⟨[], [], [], [⟨0, true, none, []⟩, ⟨1, false, none, []⟩,
            ⟨2, true, none, []⟩]⟩ (.error "x")).conns) ∧
    ((⟨1, false, none, []⟩ : Conn)
        ∈ (broadcast ⟨[], [], [], [⟨0, true, none, []⟩, ⟨1, false, none, []⟩,
            ⟨2, true, none, []⟩]⟩ (.error "x")).conns) ∧
    (broadcast ⟨[], [], [], [⟨0, true, none, []⟩, ⟨1, false, none, []⟩,
        ⟨2, true, none, []⟩]⟩ (.error "x")).conns.length = 3 := by
  refine ⟨?_, ?_, ?_, ?_⟩
  · exact (broadcast_delivers_despite_closed_conn _ (.error "x")
      ⟨0, true, none, []⟩ (by decide)).2.2.2.2.1 rfl
  · exact (broadcast_delivers_despite_closed_conn _ (.error "x")
      ⟨2, true, none, []⟩ (by decide)).2.2.2.2.1 rfl
  · exact (broadcast_delivers_despite_closed_conn _ (.error "x")
      ⟨1, false, none, []⟩ (by decide)).2.2.2.2.2 rfl
  · exact (broadcast_delivers_despite_closed_conn
      ⟨[], [], [], [⟨0, true, none, []⟩, ⟨1, false, none, []⟩, ⟨2, true, none, []⟩]⟩
      (.error "x") ⟨0, true, none, []⟩ (by decide)).1

/-! ### C5: the admission rule (corrected at the window boundary) -/

/-- C5 counterexample: with a full window that started at time 0, a check
arriving at exactly `windowDurationMs = 5000` is NOT given a fresh window by
the code (`>` on line 61, not `≥`): the claimed rule resets and admits, the
code keeps counting in the old window and rejects. -/
theorem rate_reset_boundary_counterexample :
    (5000 : Nat) - 0 ≥ RATE_LIMIT_WINDOW ∧
    rateCheck (some ⟨10, 0⟩) 5000 = (⟨11, 0⟩, false) ∧
    admitClaimed (some ⟨10, 0⟩) 5000 = (⟨1, 5000⟩, true) := by decide

/-- C5 amended: the code's admission check equals the claimed rule with the
reset condition tightened to a strict inequality — reset (windowStart = now,
count = 0) iff no state exists or `now − windowStart > windowDurationMs`,
then increment, then allow iff the count is at most `maxPerWindow`.  A check
arriving exactly `windowDurationMs` after `windowStart` stays in the old
window. -/
theorem rateCheck_eq_admitAmended (prev : Option RateLimit) (now : Nat) :
    rateCheck prev now = admitAmended prev now := by
  cases prev with
  | none => simp [rateCheck, admitAmended]
  | some rl => rfl

/-! ### C7: the rate-limit entry survives its session (corrected) -/

/-- C7 counterexample: after connect, join as "alice" (session id "s1"), one
chat message and a disconnect, the reached state still holds the rate-limit
entry for "s1" although the session registry no longer knows "s1" — closing
a connection does not remove the rate-limit entry. -/
theorem rateLimit_entry_outlives_session :
    Reachable closedState ∧
    mapGet closedState.rateLimitMap "s1" = some ⟨1, 1⟩ ∧
    getSession closedState.sessions "s1" = none := by
  refine ⟨?_, by decide, by decide⟩
  exact Reachable.close (Reachable.frame (Reachable.frame
    (Reachable.connect Reachable.init (by decide)) (by decide)) (by decide))

/-- C7 amended: closing a joined connection removes its session from the
registry but leaves the rate-limit map untouched, so the map may keep
entries whose session id is no longer registered. -/
theorem close_removes_session_but_keeps_rateLimit
    (st : ServerState) (cid : Nat) (c : Conn) (sid : String)
    (hfind : st.conns.find? (fun x => x.cid == cid) = some c)
    (hsid : c.sessionId = some sid) :
    (handleClose st cid).rateLimitMap = st.rateLimitMap ∧
    (handleClose st cid).sessions = removeSession st.sessions sid := by
  unfold handleClose
  rw [hfind]
  simp only [hsid]
  cases h : (getSession st.sessions sid).map Session.username with
  | none => simp [h]
  | some u =>
    by_cases hu : u = "" <;> simp [h, hu, broadcast]

/-- Witness for C7's amended statement on the concrete pre-close state of
the counterexample trace. -/
theorem close_removes_session_but_keeps_rateLimit_witness :
    (handleClose (chatEvent aliceJoined) 0).rateLimitMap
      = (chatEvent aliceJoined).rateLimitMap ∧
    (handleClose (chatEvent aliceJoined) 0).sessions
      = removeSession (chatEvent aliceJoined).sessions "s1" := by
  exact close_removes_session_but_keeps_rateLimit (chatEvent aliceJoined) 0
    ⟨0, true, some "s1",
      [.welcome "s1", .presence "join" "alice", .history [],
       .message ⟨"m", "alice", "x", 1⟩]⟩ "s1" (by decide) rfl

/-! ### C3: empty-content messages (corrected: the rate counter moves) -/

/-- C3 counterexample: a message event with an absent content field from a
joined connection does get exactly the "Empty message" error, but the
per-session rate-limit state is NOT "exactly as before": the entry is
created and its counter incremented, because rate limiting runs before
content validation. -/
theorem empty_message_still_mutates_rate_state :
    c3After.conns = [⟨0, true, some "s1", [.error "Empty message"]⟩] ∧
    c3Before.rateLimitMap = [] ∧
    c3After.rateLimitMap = [("s1", ⟨1, 4⟩)] ∧
    c3After.sessions = c3Before.sessions ∧
    c3After.messages = c3Before.messages := by decide

/-- C3 amended: for a joined connection's message event whose content field
is missing, not a string, or the empty string, and which the rate limiter
admits, the server emits exactly one "Empty message" error frame to that
connection; the session registry, the history store, and every other
connection are unchanged — but the session's rate-limit entry is updated
(created/reset and incremented) exactly as for any message event. -/
theorem empty_message_rejected_only_rate_state_moves
    (st : ServerState) (cid : Nat) (c : Conn) (m : InMsg) (now : Nat)
    (uuid : String) (sid : String)
    (hfind : st.conns.find? (fun x => x.cid == cid) = some c)
    (hsid : c.sessionId = some sid)
    (hty : typeField m.type = some "message")
    (hcontent : validContent m.content = none)
    (hallowed : (rateCheck (mapGet st.rateLimitMap sid) now).2 = true) :
    handleFrame st cid (some m) now uuid
      = sendTo
          { st with
              rateLimitMap := mapSet st.rateLimitMap sid
                (rateCheck (mapGet st.rateLimitMap sid) now).1 }
          cid (.error "Empty message") ∧
    (handleFrame st cid (some m) now uuid).sessions = st.sessions ∧
    (handleFrame st cid (some m) now uuid).messages = st.messages ∧
    (handleFrame st cid (some m) now uuid).conns
      = st.conns.map (fun x =>
          if x.cid = cid then { x with sent := x.sent ++ [.error "Empty message"] }
          else x) := by
  have h1 : handleFrame st cid (some m) now uuid
      = sendTo
          { st with
              rateLimitMap := mapSet st.rateLimitMap sid
                (rateCheck (mapGet st.rateLimitMap sid) now).1 }
          cid (.error "Empty message") := by
    rw [handleFrame_message_eq_handleChat st cid c m now uuid sid hfind hsid hty]
    exact handleChat_empty st cid sid m.content now uuid hallowed hcontent
  exact ⟨h1, by rw [h1]; rfl, by rw [h1]; rfl, by rw [h1]; rfl⟩

/-- Witness for C3's amended statement on the counterexample's concrete
input. -/
theorem empty_message_rejected_only_rate_state_moves_witness :
    c3After
      = sendTo
          { c3Before with
              rateLimitMap := mapSet c3Before.rateLimitMap "s1"
                (rateCheck (mapGet c3Before.rateLimitMap "s1") 4).1 }
          0 (.error "Empty message") ∧
    c3After.sessions = c3Before.sessions ∧
    c3After.messages = c3Before.messages := by
  have h := empty_message_rejected_only_rate_state_moves c3Before 0
    ⟨0, true, some "s1", []⟩ ⟨some (.str "message"), none, none⟩ 4 "m1" "s1"
    (by decide) rfl (by decide) (by decide) (by decide)
  exact ⟨h.1, h.2.1, h.2.2.1⟩

/-! ### C1: fixed-window throttling -/

/-- C1: once a joined session's window counter has reached `maxPerWindow`,
every further message event inside the window is answered with a single
"Rate limit exceeded" error frame to the sender only, is not appended to the
history store, and is not broadcast (only the counter grows); and once the
window has rolled over, the next message event from that session is admitted
again and appended to the history store. -/
theorem rate_limited_until_window_rolls
    (st : ServerState) (cid : Nat) (c : Conn) (m m2 : InMsg)
    (now now2 : Nat) (uuid uuid2 : String) (sid : String) (cnt lastT : Nat)
    (body : String)
    (hfind : st.conns.find? (fun x => x.cid == cid) = some c)
    (hsid : c.sessionId = some sid)
    (hrl : mapGet st.rateLimitMap sid = some ⟨cnt, lastT⟩)
    (hcnt : RATE_LIMIT_MAX ≤ cnt)
    (hin : ¬ now - lastT > RATE_LIMIT_WINDOW)
    (hty : typeField m.type = some "message")
    (hty2 : typeField m2.type = some "message")
    (hbody : validContent m2.content = some body)
    (hroll : now2 - lastT > RATE_LIMIT_WINDOW) :
    handleFrame st cid (some m) now uuid
      = sendTo
          { st with rateLimitMap := mapSet st.rateLimitMap sid ⟨cnt + 1, lastT⟩ }
          cid (.error "Rate limit exceeded") ∧
    (handleFrame st cid (some m) now uuid).messages = st.messages ∧
    (handleFrame st cid (some m) now uuid).sessions = st.sessions ∧
    (handleFrame st cid (some m) now uuid).conns
      = st.conns.map (fun x =>
          if x.cid = cid then
            { x with sent := x.sent ++ [.error "Rate limit exceeded"] }
          else x) ∧
    (handleFrame (handleFrame st cid (some m) now uuid) cid (some m2) now2
        uuid2).messages
      = st.messages
        ++ [⟨uuid2, ((getSession st.sessions sid).map Session.username).getD "unknown",
             body, now2⟩] := by
  have hmax : RATE_LIMIT_MAX = 10 := rfl
  have hrc : rateCheck (mapGet st.rateLimitMap sid) now = (⟨cnt + 1, lastT⟩, false) := by
    rw [hrl, rateCheck_in_window cnt lastT now hin]
    have hno : ¬ (cnt + 1 ≤ RATE_LIMIT_MAX) := by omega
    simp [hno]
  have h1 : handleFrame st cid (some m) now uuid
      = sendTo
          { st with rateLimitMap := mapSet st.rateLimitMap sid ⟨cnt + 1, lastT⟩ }
          cid (.error "Rate limit exceeded") := by
    rw [handleFrame_message_eq_handleChat st cid c m now uuid sid hfind hsid hty,
        handleChat_rejected st cid sid m.content now uuid (by rw [hrc])]
    rw [hrc]
  have hccid : c.cid = cid := by
    have h := List.find?_some hfind
    simpa using h
  have hfind1 : (handleFrame st cid (some m) now uuid).conns.find?
        (fun x => x.cid == cid)
      = some { c with sent := c.sent ++ [Frame.error "Rate limit exceeded"] } := by
    rw [h1, find?_cid_sendTo]
    simp only [hfind]
    simp [hccid]
  have hmsg1 : (handleFrame st cid (some m) now uuid).messages = st.messages := by
    rw [h1]; rfl
  have hsess1 : (handleFrame st cid (some m) now uuid).sessions = st.sessions := by
    rw [h1]; rfl
  have hrlm1 : (handleFrame st cid (some m) now uuid).rateLimitMap
      = mapSet st.rateLimitMap sid ⟨cnt + 1, lastT⟩ := by
    rw [h1]; rfl
  have hrc2 : rateCheck
      (mapGet (handleFrame st cid (some m) now uuid).rateLimitMap sid) now2
      = (⟨1, now2⟩, true) := by
    rw [hrlm1, mapGet_mapSet_self, rateCheck_rolled _ _ _ hroll]
  have h2 : (handleFrame (handleFrame st cid (some m) now uuid) cid (some m2)
        now2 uuid2).messages
      = st.messages
        ++ [⟨uuid2, ((getSession st.sessions sid).map Session.username).getD "unknown",
             body, now2⟩] := by
    rw [handleFrame_message_eq_handleChat _ cid _ m2 now2 uuid2 sid hfind1 hsid hty2,
        handleChat_admitted _ cid sid m2.content now2 uuid2 body (by rw [hrc2]) hbody]
    simp [broadcast, storeMessage, hmsg1, hsess1]
  exact ⟨h1, by rw [h1]; rfl, by rw [h1]; rfl, by rw [h1]; rfl, h2⟩

/-- Witness for C1: a session whose counter already reached 10: an 11th
message inside the window is rejected, and a later message after the window
has passed is stored. -/
theorem rate_limited_until_window_rolls_witness :
    handleFrame
        ⟨[("s1", ⟨"s1", "alice", 0⟩)], [("s1", ⟨10, 0⟩)], [],
         [⟨0, true, some "s1", []⟩]⟩ 0
        (some (chatBody "hi")) 100 "mA"
      = sendTo
          { (⟨[("s1", ⟨"s1", "alice", 0⟩)], [("s1", ⟨10, 0⟩)], [],
              [⟨0, true, some "s1", []⟩]⟩ : ServerState) with
              rateLimitMap := mapSet [("s1", ⟨10, 0⟩)] "s1" ⟨10 + 1, 0⟩ }
          0 (.error "Rate limit exceeded") ∧
    (handleFrame
        ⟨[("s1", ⟨"s1", "alice", 0⟩)], [("s1", ⟨10, 0⟩)], [],
         [⟨0, true, some "s1", []⟩]⟩ 0
        (some (chatBody "hi")) 100 "mA").messages = [] ∧
    (handleFrame
        (handleFrame
          ⟨[("s1", ⟨"s1", "alice", 0⟩)], [("s1", ⟨10, 0⟩)], [],
           [⟨0, true, some "s1", []⟩]⟩ 0
          (some (chatBody "hi")) 100 "mA") 0
        (some (chatBody "later")) 6000 "mB").messages
      = [⟨"mB", "alice", "later", 6000⟩] := by
  have h := rate_limited_until_window_rolls
    ⟨[("s1", ⟨"s1", "alice", 0⟩)], [("s1", ⟨10, 0⟩)], [],
     [⟨0, true, some "s1", []⟩]⟩ 0
    ⟨0, true, some "s1", []⟩ (chatBody "hi") (chatBody "later") 100 6000
    "mA" "mB" "s1" 10 0 "later"
    (by decide) rfl (by decide) (by decide) (by decide) (by decide) (by decide)
    (by decide) (by decide)
  refine ⟨h.1, ?_, ?_⟩
  · have := h.2.1
    simpa using this
  · have := h.2.2.2.2
    simpa using this

/-! ### C4: the counter is not capped; acceptance is (corrected) -/

/-- C4 counterexample: in the reachable state after connect, join, and
eleven message events inside one rate window (window started at time 1,
all events at time 1), the recorded counter of session "s1" is 11, which
exceeds maxPerWindow = 10, while the current time still lies within the
window — the recorded count is not bounded by the maximum. -/
theorem rate_count_exceeds_max_within_window :
    Reachable burstLiteral ∧
    mapGet burstLiteral.rateLimitMap "s1" = some ⟨11, 1⟩ ∧
    RATE_LIMIT_MAX < 11 ∧
    (1 : Nat) - 1 < RATE_LIMIT_WINDOW := by
  refine ⟨?_, by decide, by decide, by decide⟩
  have e0 : aliceJoined = (⟨[("s1", ⟨"s1", "alice", 0⟩)], [],
      [],
      [⟨0, true, some "s1",
        [.welcome "s1",
         .presence "join" "alice",
         .history []]⟩]⟩ : ServerState) := by decide
  have r0 : Reachable (⟨[("s1", ⟨"s1", "alice", 0⟩)], [],
      [],
      [⟨0, true, some "s1",
        [.welcome "s1",
         .presence "join" "alice",
         .history []]⟩]⟩ : ServerState) := by
    rw [← e0]
    exact Reachable.frame (Reachable.connect Reachable.init (by decide)) (by decide)
  have e1 : chatEvent (⟨[("s1", ⟨"s1", "alice", 0⟩)], [],
      [],
      [⟨0, true, some "s1",
        [.welcome "s1",
         .presence "join" "alice",
         .history []]⟩]⟩ : ServerState) = (⟨[("s1", ⟨"s1", "alice", 0⟩)], [("s1", ⟨1, 1⟩)],
      [⟨"m", "alice", "x", 1⟩],
      [⟨0, true, some "s1",
        [.welcome "s1",
         .presence "join" "alice",
         .history [],
         .message ⟨"m", "alice", "x", 1⟩]⟩]⟩ : ServerState) := by decide
  have r1 : Reachable (⟨[("s1", ⟨"s1", "alice", 0⟩)], [("s1", ⟨1, 1⟩)],
      [⟨"m", "alice", "x", 1⟩],
      [⟨0, true, some "s1",
        [.welcome "s1",
         .presence "join" "alice",
         .history [],
         .message ⟨"m", "alice", "x", 1⟩]⟩]⟩ : ServerState) := by
    rw [← e1]
    exact Reachable.frame r0 (by decide)
  have e2 : chatEvent (⟨[("s1", ⟨"s1", "alice", 0⟩)], [("s1", ⟨1, 1⟩)],
      [⟨"m", "alice", "x", 1⟩],
      [⟨0, true, some "s1",
        [.welcome "s1",
         .presence "join" "alice",
         .history [],
         .message ⟨"m", "alice", "x", 1⟩]⟩]⟩ : ServerState) = (⟨[("s1", ⟨"s1", "alice", 0⟩)], [("s1", ⟨2, 1⟩)],
      [⟨"m", "alice", "x", 1⟩, ⟨"m", "alice", "x", 1⟩],
      [⟨0, true, some "s1",
        [.welcome "s1",
         .presence "join" "alice",
         .history [],
         .message ⟨"m", "alice", "x", 1⟩,
         .message ⟨"m", "alice", "x", 1⟩]⟩]⟩ : ServerState) := by decide
  have r2 : Reachable (⟨[("s1", ⟨"s1", "alice", 0⟩)], [("s1", ⟨2, 1⟩)],
      [⟨"m", "alice", "x", 1⟩, ⟨"m", "alice", "x", 1⟩],
      [⟨0, true, some "s1",
        [.welcome "s1",
         .presence "join" "alice",
         .history [],
         .message ⟨"m", "alice", "x", 1⟩,
         .message ⟨"m", "alice", "x", 1⟩]⟩]⟩ : ServerState) := by
    rw [← e2]
    exact Reachable.frame r1 (by decide)
  have e3 : chatEvent (⟨[("s1", ⟨"s1", "alice", 0⟩)], [("s1", ⟨2, 1⟩)],
      [⟨"m", "alice", "x", 1⟩, ⟨"m", "alice", "x", 1⟩],
      [⟨0, true, some "s1",
        [.welcome "s1",
         .presence "join" "alice",
         .history [],
         .message ⟨"m", "alice", "x", 1⟩,
         .message ⟨"m", "alice", "x", 1⟩]⟩]⟩ : ServerState) = (⟨[("s1", ⟨"s1", "alice", 0⟩)], [("s1", ⟨3, 1⟩)],
      [⟨"m", "alice", "x", 1⟩, ⟨"m", "alice", "x", 1⟩, ⟨"m", "alice", "x", 1⟩],
      [⟨0, true, some "s1",
        [.welcome "s1",
         .presence "join" "alice",
         .history [],
         .message ⟨"m", "alice", "x", 1⟩,
         .message ⟨"m", "alice", "x", 1⟩,
         .message ⟨"m", "alice", "x", 1⟩]⟩]⟩ : ServerState) := by decide
  have r3 : Reachable (⟨[("s1", ⟨"s1", "alice", 0⟩)], [("s1", ⟨3, 1⟩)],
      [⟨"m", "alice", "x", 1⟩, ⟨"m", "alice", "x", 1⟩, ⟨"m", "alice", "x", 1⟩],
      [⟨0, true, some "s1",
        [.welcome "s1",
         .presence "join" "alice",
         .history [],
         .message ⟨"m", "alice", "x", 1⟩,
         .message ⟨"m", "alice", "x", 1⟩,
         .message ⟨"m", "alice", "x", 1⟩]⟩]⟩ : ServerState) := by
    rw [← e3]
    exact Reachable.frame r2 (by decide)
  have e4 : chatEvent (⟨[("s1", ⟨"s1", "alice", 0⟩)], [("s1", ⟨3, 1⟩)],
      [⟨"m", "alice", "x", 1⟩, ⟨"m", "alice", "x", 1⟩, ⟨"m", "alice", "x", 1⟩],
      [⟨0, true, some "s1",
        [.welcome "s1",
         .presence "join" "alice",
         .history [],
         .message ⟨"m", "alice", "x", 1⟩,
         .message ⟨"m", "alice", "x", 1⟩,
         .message ⟨"m", "alice", "x", 1⟩]⟩]⟩ : ServerState) = (⟨[("s1", ⟨"s1", "alice", 0⟩)], [("s1", ⟨4, 1⟩)],
      [⟨"m", "alice", "x", 1⟩, ⟨"m", "alice", "x", 1⟩, ⟨"m", "alice", "x", 1⟩, ⟨"m", "alice", "x", 1⟩],
      [⟨0, true, some "s1",
        [.welcome "s1",
         .presence "join" "alice",
         .history [],
         .message ⟨"m", "alice", "x", 1⟩,
         .message ⟨"m", "alice", "x", 1⟩,
         .message ⟨"m", "alice", "x", 1⟩,
         .message ⟨"m", "alice", "x", 1⟩]⟩]⟩ : ServerState) := by decide
  have r4 : Reachable (⟨[("s1", ⟨"s1", "alice", 0⟩)], [("s1", ⟨4, 1⟩)],
      [⟨"m", "alice", "x", 1⟩, ⟨"m", "alice", "x", 1⟩, ⟨"m", "alice", "x", 1⟩, ⟨"m", "alice", "x", 1⟩],
      [⟨0, true, some "s1",
        [.welcome "s1",
         .presence "join" "alice",
         .history [],
         .message ⟨"m", "alice", "x", 1⟩,
         .message ⟨"m", "alice", "x", 1⟩,
         .message ⟨"m", "alice", "x", 1⟩,
         .message ⟨"m", "alice", "x", 1⟩]⟩]⟩ : ServerState) := by
    rw [← e4]
    exact Reachable.frame r3 (by decide)
  have e5 : chatEvent (⟨[("s1", ⟨"s1", "alice", 0⟩)], [("s1", ⟨4, 1⟩)],
      [⟨"m", "alice", "x", 1⟩, ⟨"m", "alice", "x", 1⟩, ⟨"m", "alice", "x", 1⟩, ⟨"m", "alice", "x", 1⟩],
      [⟨0, true, some "s1",
        [.welcome "s1",
         .presence "join" "alice",
         .history [],
         .message ⟨"m", "alice", "x", 1⟩,
         .message ⟨"m", "alice", "x", 1⟩,
         .message ⟨"m", "alice", "x", 1⟩,
         .message ⟨"m", "alice", "x", 1⟩]⟩]⟩ : ServerState) = (⟨[("s1", ⟨"s1", "alice", 0⟩)], [("s1", ⟨5, 1⟩)],
      [⟨"m", "alice", "x", 1⟩, ⟨"m", "alice", "x", 1⟩, ⟨"m", "alice", "x", 1⟩, ⟨"m", "alice", "x", 1⟩, ⟨"m", "alice", "x", 1⟩],
      [⟨0, true, some "s1",
        [.welcome "s1",
         .presence "join" "alice",
         .history [],
         .message ⟨"m", "alice", "x", 1⟩,
         .message ⟨"m", "alice", "x", 1⟩,
         .message ⟨"m", "alice", "x", 1⟩,
         .message ⟨"m", "alice", "x", 1⟩,
         .message ⟨"m", "alice", "x", 1⟩]⟩]⟩ : ServerState) := by decide
  have r5 : Reachable (⟨[("s1", ⟨"s1", "alice", 0⟩)], [("s1", ⟨5, 1⟩)],
      [⟨"m", "alice", "x", 1⟩, ⟨"m", "alice", "x", 1⟩, ⟨"m", "alice", "x", 1⟩, ⟨"m", "alice", "x", 1⟩, ⟨"m", "alice", "x", 1⟩],
      [⟨0, true, some "s1",
        [.welcome "s1",
         .presence "join" "alice",
         .history [],
         .message ⟨"m", "alice", "x", 1⟩,
         .message ⟨"m", "alice", "x", 1⟩,
         .message ⟨"m", "alice", "x", 1⟩,
         .message ⟨"m", "alice", "x", 1⟩,
         .message ⟨"m", "alice", "x", 1⟩]⟩]⟩ : ServerState) := by
    rw [← e5]
    exact Reachable.frame r4 (by decide)
  have e6 : chatEvent (⟨[("s1", ⟨"s1", "alice", 0⟩)], [("s1", ⟨5, 1⟩)],
      [⟨"m", "alice", "x", 1⟩, ⟨"m", "alice", "x", 1⟩, ⟨"m", "alice", "x", 1⟩, ⟨"m", "alice", "x", 1⟩, ⟨"m", "alice", "x", 1⟩],
      [⟨0, true, some "s1",
        [.welcome "s1",
         .presence "join" "alice",
         .history [],
         .message ⟨"m", "alice", "x", 1⟩,
         .message ⟨"m", "alice", "x", 1⟩,
         .message ⟨"m", "alice", "x", 1⟩,
         .message ⟨"m", "alice", "x", 1⟩,
         .message ⟨"m", "alice", "x", 1⟩]⟩]⟩ : ServerState) = (⟨[("s1", ⟨"s1", "alice", 0⟩)], [("s1", ⟨6, 1⟩)],
      [⟨"m", "alice", "x", 1⟩, ⟨"m", "alice", "x", 1⟩, ⟨"m", "alice", "x", 1⟩, ⟨"m", "alice", "x", 1⟩, ⟨"m", "alice", "x", 1⟩, ⟨"m", "alice", "x", 1⟩],
      [⟨0, true, some "s1",
        [.welcome "s1",
         .presence "join" "alice",
         .history [],
         .message ⟨"m", "alice", "x", 1⟩,
         .message ⟨"m", "alice", "x", 1⟩,
         .message ⟨"m", "alice", "x", 1⟩,
         .message ⟨"m", "alice", "x", 1⟩,
         .message ⟨"m", "alice", "x", 1⟩,
         .message ⟨"m", "alice", "x", 1⟩]⟩]⟩ : ServerState) := by decide
  have r6 : Reachable (⟨[("s1", ⟨"s1", "alice", 0⟩)], [("s1", ⟨6, 1⟩)],
      [⟨"m", "alice", "x", 1⟩, ⟨"m", "alice", "x", 1⟩, ⟨"m", "alice", "x", 1⟩, ⟨"m", "alice", "x", 1⟩, ⟨"m", "alice", "x", 1⟩, ⟨"m", "alice", "x", 1⟩],
      [⟨0, true, some "s1",
        [.welcome "s1",
         .presence "join" "alice",
         .history [],
         .message ⟨"m", "alice", "x", 1⟩,
         .message ⟨"m", "alice", "x", 1⟩,
         .message ⟨"m", "alice", "x", 1⟩,
         .message ⟨"m", "alice", "x", 1⟩,
         .message ⟨"m", "alice", "x", 1⟩,
         .message ⟨"m", "alice", "x", 1⟩]⟩]⟩ : ServerState) := by
    rw [← e6]
    exact Reachable.frame r5 (by decide)
  have e7 : chatEvent (⟨[("s1", ⟨"s1", "alice", 0⟩)], [("s1", ⟨6, 1⟩)],
      [⟨"m", "alice", "x", 1⟩, ⟨"m", "alice", "x", 1⟩, ⟨"m", "alice", "x", 1⟩, ⟨"m", "alice", "x", 1⟩, ⟨"m", "alice", "x", 1⟩, ⟨"m", "alice", "x", 1⟩],
      [⟨0, true, some "s1",
        [.welcome "s1",
         .presence "join" "alice",
         .history [],
         .message ⟨"m", "alice", "x", 1⟩,
         .message ⟨"m", "alice", "x", 1⟩,
         .message ⟨"m", "alice", "x", 1⟩,
         .message ⟨"m", "alice", "x", 1⟩,
         .message ⟨"m", "alice", "x", 1⟩,
         .message ⟨"m", "alice", "x", 1⟩]⟩]⟩ : ServerState) = (⟨[("s1", ⟨"s1", "alice", 0⟩)], [("s1", ⟨7, 1⟩)],
      [⟨"m", "alice", "x", 1⟩, ⟨"m", "alice", "x", 1⟩, ⟨"m", "alice", "x", 1⟩, ⟨"m", "alice", "x", 1⟩, ⟨"m", "alice", "x", 1⟩, ⟨"m", "alice", "x", 1⟩, ⟨"m", "alice", "x", 1⟩],
      [⟨0, true, some "s1",
        [.welcome "s1",
         .presence "join" "alice",
         .history [],
         .message ⟨"m", "alice", "x", 1⟩,
         .message ⟨"m", "alice", "x", 1⟩,
         .message ⟨"m", "alice", "x", 1⟩,
         .message ⟨"m", "alice", "x", 1⟩,
         .message ⟨"m", "alice", "x", 1⟩,
         .message ⟨"m", "alice", "x", 1⟩,
         .message ⟨"m", "alice", "x", 1⟩]⟩]⟩ : ServerState) := by decide
  have r7 : Reachable (⟨[("s1", ⟨"s1", "alice", 0⟩)], [("s1", ⟨7, 1⟩)],
      [⟨"m", "alice", "x", 1⟩, ⟨"m", "alice", "x", 1⟩, ⟨"m", "alice", "x", 1⟩, ⟨"m", "alice", "x", 1⟩, ⟨"m", "alice", "x", 1⟩, ⟨"m", "alice", "x", 1⟩, ⟨"m", "alice", "x", 1⟩],
      [⟨0, true, some "s1",
        [.welcome "s1",
         .presence "join" "alice",
         .history [],
         .message ⟨"m", "alice", "x", 1⟩,
         .message ⟨"m", "alice", "x", 1⟩,
         .message ⟨"m", "alice", "x", 1⟩,
         .message ⟨"m", "alice", "x", 1⟩,
         .message ⟨"m", "alice", "x", 1⟩,
         .message ⟨"m", "alice", "x", 1⟩,
         .message ⟨"m", "alice", "x", 1⟩]⟩]⟩ : ServerState) := by
    rw [← e7]
    exact Reachable.frame r6 (by decide)
  have e8 : chatEvent (⟨[("s1", ⟨"s1", "alice", 0⟩)], [("s1", ⟨7, 1⟩)],
      [⟨"m", "alice", "x", 1⟩, ⟨"m", "alice", "x", 1⟩, ⟨"m", "alice", "x", 1⟩, ⟨"m", "alice", "x", 1⟩, ⟨"m", "alice", "x", 1⟩, ⟨"m", "alice", "x", 1⟩, ⟨"m", "alice", "x", 1⟩],
      [⟨0, true, some "s1",
        [.welcome "s1",
         .presence "join" "alice",
         .history [],
         .message ⟨"m", "alice", "x", 1⟩,
         .message ⟨"m", "alice", "x", 1⟩,
         .message ⟨"m", "alice", "x", 1⟩,
         .message ⟨"m", "alice", "x", 1⟩,
         .message ⟨"m", "alice", "x", 1⟩,
         .message ⟨"m", "alice", "x", 1⟩,
         .message ⟨"m", "alice", "x", 1⟩]⟩]⟩ : ServerState) = (⟨[("s1", ⟨"s1", "alice", 0⟩)], [("s1", ⟨8, 1⟩)],
      [⟨"m", "alice", "x", 1⟩, ⟨"m", "alice", "x", 1⟩, ⟨"m", "alice", "x", 1⟩, ⟨"m", "alice", "x", 1⟩, ⟨"m", "alice", "x", 1⟩, ⟨"m", "alice", "x", 1⟩, ⟨"m", "alice", "x", 1⟩, ⟨"m", "alice", "x", 1⟩],
      [⟨0, true, some "s1",
        [.welcome "s1",
         .presence "join" "alice",
         .history [],
         .message ⟨"m", "alice", "x", 1⟩,
         .message ⟨"m", "alice", "x", 1⟩,
         .message ⟨"m", "alice", "x", 1⟩,
         .message ⟨"m", "alice", "x", 1⟩,
         .message ⟨"m", "alice", "x", 1⟩,
         .message ⟨"m", "alice", "x", 1⟩,
         .message ⟨"m", "alice", "x", 1⟩,
         .message ⟨"m", "alice", "x", 1⟩]⟩]⟩ : ServerState) := by decide
  have r8 : Reachable (⟨[("s1", ⟨"s1", "alice", 0⟩)], [("s1", ⟨8, 1⟩)],
      [⟨"m", "alice", "x", 1⟩, ⟨"m", "alice", "x", 1⟩, ⟨"m", "alice", "x", 1⟩, ⟨"m", "alice", "x", 1⟩, ⟨"m", "alice", "x", 1⟩, ⟨"m", "alice", "x", 1⟩, ⟨"m", "alice", "x", 1⟩, ⟨"m", "alice", "x", 1⟩],
      [⟨0, true, some "s1",
        [.welcome "s1",
         .presence "join" "alice",
         .history [],
         .message ⟨"m", "alice", "x", 1⟩,
         .message ⟨"m", "alice", "x", 1⟩,
         .message ⟨"m", "alice", "x", 1⟩,
         .message ⟨"m", "alice", "x", 1⟩,
         .message ⟨"m", "alice", "x", 1⟩,
         .message ⟨"m", "alice", "x", 1⟩,
         .message ⟨"m", "alice", "x", 1⟩,
         .message ⟨"m", "alice", "x", 1⟩]⟩]⟩ : ServerState) := by
    rw [← e8]
    exact Reachable.frame r7 (by decide)
  have e9 : chatEvent (⟨[("s1", ⟨"s1", "alice", 0⟩)], [("s1", ⟨8, 1⟩)],
      [⟨"m", "alice", "x", 1⟩, ⟨"m", "alice", "x", 1⟩, ⟨"m", "alice", "x", 1⟩, ⟨"m", "alice", "x", 1⟩, ⟨"m", "alice", "x", 1⟩, ⟨"m", "alice", "x", 1⟩, ⟨"m", "alice", "x", 1⟩, ⟨"m", "alice", "x", 1⟩],
      [⟨0, true, some "s1",
        [.welcome "s1",
         .presence "join" "alice",
         .history [],
         .message ⟨"m", "alice", "x", 1⟩,
         .message ⟨"m", "alice", "x", 1⟩,
         .message ⟨"m", "alice", "x", 1⟩,
         .message ⟨"m", "alice", "x", 1⟩,
         .message ⟨"m", "alice", "x", 1⟩,
         .message ⟨"m", "alice", "x", 1⟩,
         .message ⟨"m", "alice", "x", 1⟩,
         .message ⟨"m", "alice", "x", 1⟩]⟩]⟩ : ServerState) = (⟨[("s1", ⟨"s1", "alice", 0⟩)], [("s1", ⟨9, 1⟩)],
      [⟨"m", "alice", "x", 1⟩, ⟨"m", "alice", "x", 1⟩, ⟨"m", "alice", "x", 1⟩, ⟨"m", "alice", "x", 1⟩, ⟨"m", "alice", "x", 1⟩, ⟨"m", "alice", "x", 1⟩, ⟨"m", "alice", "x", 1⟩, ⟨"m", "alice", "x", 1⟩, ⟨"m", "alice", "x", 1⟩],
      [⟨0, true, some "s1",
        [.welcome "s1",
         .presence "join" "alice",
         .history [],
         .message ⟨"m", "alice", "x", 1⟩,
         .message ⟨"m", "alice", "x", 1⟩,
         .message ⟨"m", "alice", "x", 1⟩,
         .message ⟨"m", "alice", "x", 1⟩,
         .message ⟨"m", "alice", "x", 1⟩,
         .message ⟨"m", "alice", "x", 1⟩,
         .message ⟨"m", "alice", "x", 1⟩,
         .message ⟨"m", "alice", "x", 1⟩,
         .message ⟨"m", "alice", "x", 1⟩]⟩]⟩ : ServerState) := by decide
  have r9 : Reachable (⟨[("s1", ⟨"s1", "alice", 0⟩)], [("s1", ⟨9, 1⟩)],
      [⟨"m", "alice", "x", 1⟩, ⟨"m", "alice", "x", 1⟩, ⟨"m", "alice", "x", 1⟩, ⟨"m", "alice", "x", 1⟩, ⟨"m", "alice", "x", 1⟩, ⟨"m", "alice", "x", 1⟩, ⟨"m", "alice", "x", 1⟩, ⟨"m", "alice", "x", 1⟩, ⟨"m", "alice", "x", 1⟩],
      [⟨0, true, some "s1",
        [.welcome "s1",
         .presence "join" "alice",
         .history [],
         .message ⟨"m", "alice", "x", 1⟩,
         .message ⟨"m", "alice", "x", 1⟩,
         .message ⟨"m", "alice", "x", 1⟩,
         .message ⟨"m", "alice", "x", 1⟩,
         .message ⟨"m", "alice", "x", 1⟩,
         .message ⟨"m", "alice", "x", 1⟩,
         .message ⟨"m", "alice", "x", 1⟩,
         .message ⟨"m", "alice", "x", 1⟩,
         .message ⟨"m", "alice", "x", 1⟩]⟩]⟩ : ServerState) := by
    rw [← e9]
    exact Reachable.frame r8 (by decide)
  have e10 : chatEvent (⟨[("s1", ⟨"s1", "alice", 0⟩)], [("s1", ⟨9, 1⟩)],
      [⟨"m", "alice", "x", 1⟩, ⟨"m", "alice", "x", 1⟩, ⟨"m", "alice", "x", 1⟩, ⟨"m", "alice", "x", 1⟩, ⟨"m", "alice", "x", 1⟩, ⟨"m", "alice", "x", 1⟩, ⟨"m", "alice", "x", 1⟩, ⟨"m", "alice", "x", 1⟩, ⟨"m", "alice", "x", 1⟩],
      [⟨0, true, some "s1",
        [.welcome "s1",
         .presence "join" "alice",
         .history [],
         .message ⟨"m", "alice", "x", 1⟩,
         .message ⟨"m", "alice", "x", 1⟩,
         .message ⟨"m", "alice", "x", 1⟩,
         .message ⟨"m", "alice", "x", 1⟩,
         .message ⟨"m", "alice", "x", 1⟩,
         .message ⟨"m", "alice", "x", 1⟩,
         .message ⟨"m", "alice", "x", 1⟩,
         .message ⟨"m", "alice", "x", 1⟩,
         .message ⟨"m", "alice", "x", 1⟩]⟩]⟩ : ServerState) = (⟨[("s1", ⟨"s1", "alice", 0⟩)], [("s1", ⟨10, 1⟩)],
      [⟨"m", "alice", "x", 1⟩, ⟨"m", "alice", "x", 1⟩, ⟨"m", "alice", "x", 1⟩, ⟨"m", "alice", "x", 1⟩, ⟨"m", "alice", "x", 1⟩, ⟨"m", "alice", "x", 1⟩, ⟨"m", "alice", "x", 1⟩, ⟨"m", "alice", "x", 1⟩, ⟨"m", "alice", "x", 1⟩, ⟨"m", "alice", "x", 1⟩],
      [⟨0, true, some "s1",
        [.welcome "s1",
         .presence "join" "alice",
         .history [],
         .message ⟨"m", "alice", "x", 1⟩,
         .message ⟨"m", "alice", "x", 1⟩,
         .message ⟨"m", "alice", "x", 1⟩,
         .message ⟨"m", "alice", "x", 1⟩,
         .message ⟨"m", "alice", "x", 1⟩,
         .message ⟨"m", "alice", "x", 1⟩,
         .message ⟨"m", "alice", "x", 1⟩,
         .message ⟨"m", "alice", "x", 1⟩,
         .message ⟨"m", "alice", "x", 1⟩,
         .message ⟨"m", "alice", "x", 1⟩]⟩]⟩ : ServerState) := by decide
  have r10 : Reachable (⟨[("s1", ⟨"s1", "alice", 0⟩)], [("s1", ⟨10, 1⟩)],
      [⟨"m", "alice", "x", 1⟩, ⟨"m", "alice", "x", 1⟩, ⟨"m", "alice", "x", 1⟩, ⟨"m", "alice", "x", 1⟩, ⟨"m", "alice", "x", 1⟩, ⟨"m", "alice", "x", 1⟩, ⟨"m", "alice", "x", 1⟩, ⟨"m", "alice", "x", 1⟩, ⟨"m", "alice", "x", 1⟩, ⟨"m", "alice", "x", 1⟩],
      [⟨0, true, some "s1",
        [.welcome "s1",
         .presence "join" "alice",
         .history [],
         .message ⟨"m", "alice", "x", 1⟩,
         .message ⟨"m", "alice", "x", 1⟩,
         .message ⟨"m", "alice", "x", 1⟩,
         .message ⟨"m", "alice", "x", 1⟩,
         .message ⟨"m", "alice", "x", 1⟩,
         .message ⟨"m", "alice", "x", 1⟩,
         .message ⟨"m", "alice", "x", 1⟩,
         .message ⟨"m", "alice", "x", 1⟩,
         .message ⟨"m", "alice", "x", 1⟩,
         .message ⟨"m", "alice", "x", 1⟩]⟩]⟩ : ServerState) := by
    rw [← e10]
    exact Reachable.frame r9 (by decide)
  have e11 : chatEvent (⟨[("s1", ⟨"s1", "alice", 0⟩)], [("s1", ⟨10, 1⟩)],
      [⟨"m", "alice", "x", 1⟩, ⟨"m", "alice", "x", 1⟩, ⟨"m", "alice", "x", 1⟩, ⟨"m", "alice", "x", 1⟩, ⟨"m", "alice", "x", 1⟩, ⟨"m", "alice", "x", 1⟩, ⟨"m", "alice", "x", 1⟩, ⟨"m", "alice", "x", 1⟩, ⟨"m", "alice", "x", 1⟩, ⟨"m", "alice", "x", 1⟩],
      [⟨0, true, some "s1",
        [.welcome "s1",
         .presence "join" "alice",
         .history [],
         .message ⟨"m", "alice", "x", 1⟩,
         .message ⟨"m", "alice", "x", 1⟩,
         .message ⟨"m", "alice", "x", 1⟩,
         .message ⟨"m", "alice", "x", 1⟩,
         .message ⟨"m", "alice", "x", 1⟩,
         .message ⟨"m", "alice", "x", 1⟩,
         .message ⟨"m", "alice", "x", 1⟩,
         .message ⟨"m", "alice", "x", 1⟩,
         .message ⟨"m", "alice", "x", 1⟩,
         .message ⟨"m", "alice", "x", 1⟩]⟩]⟩ : ServerState) = (⟨[("s1", ⟨"s1", "alice", 0⟩)], [("s1", ⟨11, 1⟩)],
      [⟨"m", "alice", "x", 1⟩, ⟨"m", "alice", "x", 1⟩, ⟨"m", "alice", "x", 1⟩, ⟨"m", "alice", "x", 1⟩, ⟨"m", "alice", "x", 1⟩, ⟨"m", "alice", "x", 1⟩, ⟨"m", "alice", "x", 1⟩, ⟨"m", "alice", "x", 1⟩, ⟨"m", "alice", "x", 1⟩, ⟨"m", "alice", "x", 1⟩],
      [⟨0, true, some "s1",
        [.welcome "s1",
         .presence "join" "alice",
         .history [],
         .message ⟨"m", "alice", "x", 1⟩,
         .message ⟨"m", "alice", "x", 1⟩,
         .message ⟨"m", "alice", "x", 1⟩,
         .message ⟨"m", "alice", "x", 1⟩,
         .message ⟨"m", "alice", "x", 1⟩,
         .message ⟨"m", "alice", "x", 1⟩,
         .message ⟨"m", "alice", "x", 1⟩,
         .message ⟨"m", "alice", "x", 1⟩,
         .message ⟨"m", "alice", "x", 1⟩,
         .message ⟨"m", "alice", "x", 1⟩,
         .error "Rate limit exceeded"]⟩]⟩ : ServerState) := by decide
  have r11 : Reachable (⟨[("s1", ⟨"s1", "alice", 0⟩)], [("s1", ⟨11, 1⟩)],
      [⟨"m", "alice", "x", 1⟩, ⟨"m", "alice", "x", 1⟩, ⟨"m", "alice", "x", 1⟩, ⟨"m", "alice", "x", 1⟩, ⟨"m", "alice", "x", 1⟩, ⟨"m", "alice", "x", 1⟩, ⟨"m", "alice", "x", 1⟩, ⟨"m", "alice", "x", 1⟩, ⟨"m", "alice", "x", 1⟩, ⟨"m", "alice", "x", 1⟩],
      [⟨0, true, some "s1",
        [.welcome "s1",
         .presence "join" "alice",
         .history [],
         .message ⟨"m", "alice", "x", 1⟩,
         .message ⟨"m", "alice", "x", 1⟩,
         .message ⟨"m", "alice", "x", 1⟩,
         .message ⟨"m", "alice", "x", 1⟩,
         .message ⟨"m", "alice", "x", 1⟩,
         .message ⟨"m", "alice", "x", 1⟩,
         .message ⟨"m", "alice", "x", 1⟩,
         .message ⟨"m", "alice", "x", 1⟩,
         .message ⟨"m", "alice", "x", 1⟩,
         .message ⟨"m", "alice", "x", 1⟩,
         .error "Rate limit exceeded"]⟩]⟩ : ServerState) := by
    rw [← e11]
    exact Reachable.frame r10 (by decide)
  have hfin : burstLiteral = (⟨[("s1", ⟨"s1", "alice", 0⟩)], [("s1", ⟨11, 1⟩)],
      [⟨"m", "alice", "x", 1⟩, ⟨"m", "alice", "x", 1⟩, ⟨"m", "alice", "x", 1⟩, ⟨"m", "alice", "x", 1⟩, ⟨"m", "alice", "x", 1⟩, ⟨"m", "alice", "x", 1⟩, ⟨"m", "alice", "x", 1⟩, ⟨"m", "alice", "x", 1⟩, ⟨"m", "alice", "x", 1⟩, ⟨"m", "alice", "x", 1⟩],
      [⟨0, true, some "s1",
        [.welcome "s1",
         .presence "join" "alice",
         .history [],
         .message ⟨"m", "alice", "x", 1⟩,
         .message ⟨"m", "alice", "x", 1⟩,
         .message ⟨"m", "alice", "x", 1⟩,
         .message ⟨"m", "alice", "x", 1⟩,
         .message ⟨"m", "alice", "x", 1⟩,
         .message ⟨"m", "alice", "x", 1⟩,
         .message ⟨"m", "alice", "x", 1⟩,
         .message ⟨"m", "alice", "x", 1⟩,
         .message ⟨"m", "alice", "x", 1⟩,
         .message ⟨"m", "alice", "x", 1⟩,
         .error "Rate limit exceeded"]⟩]⟩ : ServerState) := by decide
  rw [hfin]
  exact r11

/-- C4 amended: during one window the recorded count equals the number of
message events submitted by the session — so it can exceed `maxPerWindow`,
since rejected events are counted too — while the number of messages
actually accepted into the history store is `min k (maxPerWindow − count₀)`
and therefore never exceeds `maxPerWindow`. -/
theorem count_tracks_events_accepted_bounded
    (cid : Nat) (sid : String) (body : String) (hb : body ≠ "")
    (now lastT : Nat) (hin : ¬ now - lastT > RATE_LIMIT_WINDOW)
    (uuid : String) :
    ∀ (k : Nat) (st : ServerState) (c : Conn) (cnt : Nat),
      st.conns.find? (fun x => x.cid == cid) = some c →
      c.sessionId = some sid →
      mapGet st.rateLimitMap sid = some ⟨cnt, lastT⟩ →
      mapGet (repeatChat cid body now uuid k st).rateLimitMap sid
          = some ⟨cnt + k, lastT⟩ ∧
      (repeatChat cid body now uuid k st).messages.length
          = st.messages.length + min k (RATE_LIMIT_MAX - cnt) := by
  intro k
  induction k with
  | zero =>
    intro st c cnt hfind hsid hrl
    simpa [repeatChat] using hrl
  | succ k ih =>
    intro st c cnt hfind hsid hrl
    have hty : typeField (chatBody body).type = some "message" := rfl
    have hcontent : validContent (chatBody body).content = some body := by
      simp [validContent, chatBody, hb]
    have hrc : rateCheck (mapGet st.rateLimitMap sid) now
        = (⟨cnt + 1, lastT⟩, decide (cnt + 1 ≤ RATE_LIMIT_MAX)) := by
      rw [hrl, rateCheck_in_window cnt lastT now hin]
    have hred : handleFrame st cid (some (chatBody body)) now uuid
        = handleChat st cid sid (chatBody body).content now uuid :=
      handleFrame_message_eq_handleChat st cid c _ now uuid sid hfind hsid hty
    have hgoal : repeatChat cid body now uuid (k + 1) st
        = repeatChat cid body now uuid k
            (handleFrame st cid (some (chatBody body)) now uuid) := rfl
    by_cases hcap : cnt + 1 ≤ RATE_LIMIT_MAX
    · have htrue : (rateCheck (mapGet st.rateLimitMap sid) now).2 = true := by
        rw [hrc]; simp [hcap]
      have hadm := handleChat_admitted st cid sid (chatBody body).content now
        uuid body htrue hcontent
      rw [hrc] at hadm
      have hstep : handleFrame st cid (some (chatBody body)) now uuid
          = broadcast
              { st with
                  rateLimitMap := mapSet st.rateLimitMap sid ⟨cnt + 1, lastT⟩,
                  messages := storeMessage st.messages
                    ⟨uuid, ((getSession st.sessions sid).map
                      Session.username).getD "unknown", body, now⟩ }
              (.message
                ⟨uuid, ((getSession st.sessions sid).map
                  Session.username).getD "unknown", body, now⟩) :=
        hred.trans hadm
      have hfind' : (handleFrame st cid (some (chatBody body)) now
            uuid).conns.find? (fun x => x.cid == cid)
          = some (if c.isOpen
              then { c with sent := c.sent ++
                [Frame.message ⟨uuid, ((getSession st.sessions sid).map
                  Session.username).getD "unknown", body, now⟩] }
              else c) := by
        rw [hstep, find?_cid_broadcast]
        simp only [hfind]
        rfl
      have hsid' : (if c.isOpen
          then { c with sent := c.sent ++
            [Frame.message ⟨uuid, ((getSession st.sessions sid).map
              Session.username).getD "unknown", body, now⟩] }
          else c).sessionId = some sid := by
        by_cases hop : c.isOpen <;> simp [hop, hsid]
      have hrl' : mapGet (handleFrame st cid (some (chatBody body)) now
            uuid).rateLimitMap sid = some ⟨cnt + 1, lastT⟩ := by
        rw [hstep]
        exact mapGet_mapSet_self _ _ _
      have hlen' : (handleFrame st cid (some (chatBody body)) now
            uuid).messages.length = st.messages.length + 1 := by
        rw [hstep]
        simp [broadcast, storeMessage]
      obtain ⟨ih1, ih2⟩ := ih (handleFrame st cid (some (chatBody body)) now uuid)
        _ (cnt + 1) hfind' hsid' hrl'
      constructor
      · rw [hgoal]
        rw [show cnt + (k + 1) = cnt + 1 + k by omega]
        exact ih1
      · rw [hgoal, ih2, hlen']
        omega
    · have hfalse : (rateCheck (mapGet st.rateLimitMap sid) now).2 = false := by
        rw [hrc]; simp [hcap]
      have hrej := handleChat_rejected st cid sid (chatBody body).content now
        uuid hfalse
      rw [hrc] at hrej
      have hstep : handleFrame st cid (some (chatBody body)) now uuid
          = sendTo
              { st with
                  rateLimitMap := mapSet st.rateLimitMap sid ⟨cnt + 1, lastT⟩ }
              cid (.error "Rate limit exceeded") :=
        hred.trans hrej
      have hfind' : (handleFrame st cid (some (chatBody body)) now
            uuid).conns.find? (fun x => x.cid == cid)
          = some (if c.cid = cid
              then { c with sent := c.sent ++ [Frame.error "Rate limit exceeded"] }
              else c) := by
        rw [hstep, find?_cid_sendTo]
        simp only [hfind]
        rfl
      have hsid' : (if c.cid = cid
          then { c with sent := c.sent ++ [Frame.error "Rate limit exceeded"] }
          else c).sessionId = some sid := by
        by_cases hcc : c.cid = cid <;> simp [hcc, hsid]
      have hrl' : mapGet (handleFrame st cid (some (chatBody body)) now
            uuid).rateLimitMap sid = some ⟨cnt + 1, lastT⟩ := by
        rw [hstep]
        exact mapGet_mapSet_self _ _ _
      have hlen' : (handleFrame st cid (some (chatBody body)) now
            uuid).messages.length = st.messages.length := by
        rw [hstep]
        rfl
      obtain ⟨ih1, ih2⟩ := ih (handleFrame st cid (some (chatBody body)) now uuid)
        _ (cnt + 1) hfind' hsid' hrl'
      constructor
      · rw [hgoal]
        rw [show cnt + (k + 1) = cnt + 1 + k by omega]
        exact ih1
      · rw [hgoal, ih2, hlen']
        omega

/-- Witness for C4's amended statement: from a joined session with a fresh
window (count 0 at time 0), a burst of 11 same-window message events ends
with a recorded count of 11 and exactly 10 stored messages. -/
theorem count_tracks_events_accepted_bounded_witness :
    mapGet (repeatChat 0 "hi" 0 "m" 11
        ⟨[("s1", ⟨"s1", "alice", 0⟩)], [("s1", ⟨0, 0⟩)], [],
         [⟨0, true, some "s1", []⟩]⟩).rateLimitMap "s1"
      = some ⟨0 + 11, 0⟩ ∧
    (repeatChat 0 "hi" 0 "m" 11
        ⟨[("s1", ⟨"s1", "alice", 0⟩)], [("s1", ⟨0, 0⟩)], [],
         [⟨0, true, some "s1", []⟩]⟩).messages.length
      = ([] : List ChatMessage).length + min 11 (RATE_LIMIT_MAX - 0) :=
  count_tracks_events_accepted_bounded 0 "s1" "hi" (by decide) 0 0 (by decide)
    "m" 11
    ⟨[("s1", ⟨"s1", "alice", 0⟩)], [("s1", ⟨0, 0⟩)], [], [⟨0, true, some "s1", []⟩]⟩
    ⟨0, true, some "s1", []⟩ 0 (by decide) rfl (by decide)

/-! ### C2: join ordering and the history frame -/

/-- C2: a successful join makes the joining connection receive, in order,
the welcome frame carrying the freshly generated session id, the join
presence broadcast, and exactly one history frame; the history is the at
most 50 most recent stored messages — a suffix of the store as it was at
the join, hence in acceptance order, oldest first, and free of any message
accepted after that join's welcome; every other open connection receives
just the presence frame, and the store itself is unchanged. -/
theorem join_welcome_before_history
    (st : ServerState) (cid : Nat) (c : Conn) (m : InMsg) (now : Nat)
    (uuid : String) (u : String)
    (hfind : st.conns.find? (fun x => x.cid == cid) = some c)
    (hsid : c.sessionId = none)
    (hty : typeField m.type = some "join")
    (hu : validUsername m.username = some u) :
    (handleFrame st cid (some m) now uuid).conns
      = st.conns.map (fun x =>
          if x.cid = cid then
            { x with
                sessionId := some uuid,
                sent := x.sent ++
                  (if x.isOpen then
                    [.welcome uuid, .presence "join" u,
                     .history (sliceLast st.messages 50)]
                  else
                    [.welcome uuid, .history (sliceLast st.messages 50)]) }
          else if x.isOpen then { x with sent := x.sent ++ [.presence "join" u] }
          else x) ∧
    (handleFrame st cid (some m) now uuid).messages = st.messages ∧
    (handleFrame st cid (some m) now uuid).rateLimitMap = st.rateLimitMap ∧
    (handleFrame st cid (some m) now uuid).sessions
      = createSession st.sessions uuid u now ∧
    (sliceLast st.messages 50).length ≤ 50 ∧
    (sliceLast st.messages 50).IsSuffix st.messages := by
  have h1 : handleFrame st cid (some m) now uuid = handleJoin st cid u now uuid := by
    unfold handleFrame
    rw [hfind]
    simp [hty, hsid, hu]
  refine ⟨?_, by rw [h1]; rfl, by rw [h1]; rfl, by rw [h1]; rfl, ?_, ?_⟩
  · rw [h1]
    unfold handleJoin sendHistory
    simp only [sendTo, broadcast, getMessages, List.map_map]
    apply List.map_congr_left
    intro x _
    by_cases hx : x.cid = cid
    · by_cases hop : x.isOpen <;> simp [Function.comp, hx, hop]
    · by_cases hop : x.isOpen <;> simp [Function.comp, hx, hop]
  · unfold sliceLast
    simp
    omega
  · exact List.drop_suffix _ _

/-- Witness for C2: two connections (one open joiner, one open bystander,
one closed bystander) and a store holding one message. -/
theorem join_welcome_before_history_witness :
    (handleFrame
        ⟨[], [], [⟨"m0", "bob", "old", 0⟩],
         [⟨0, true, none, []⟩, ⟨1, true, some "sB", []⟩, ⟨2, false, none, []⟩]⟩
        0 (some joinAlice) 5 "s1").conns
      = [⟨0, true, some "s1",
          [.welcome "s1", .presence "join" "alice",
           .history [⟨"m0", "bob", "old", 0⟩]]⟩,
         ⟨1, true, some "sB", [.presence "join" "alice"]⟩,
         ⟨2, false, none, []⟩] ∧
    (handleFrame
        ⟨[], [], [⟨"m0", "bob", "old", 0⟩],
         [⟨0, true, none, []⟩, ⟨1, true, some "sB", []⟩, ⟨2, false, none, []⟩]⟩
        0 (some joinAlice) 5 "s1").messages
      = [⟨"m0", "bob", "old", 0⟩] ∧
    (handleFrame
        ⟨[], [], [⟨"m0", "bob", "old", 0⟩],
         [⟨0, true, none, []⟩, ⟨1, true, some "sB", []⟩, ⟨2, false, none, []⟩]⟩
        0 (some joinAlice) 5 "s1").sessions
      = [("s1", ⟨"s1", "alice", 5⟩)] ∧
    (sliceLast [⟨"m0", "bob", "old", 0⟩] 50).length ≤ 50 := by
  have h := join_welcome_before_history
    ⟨[], [], [⟨"m0", "bob", "old", 0⟩],
     [⟨0, true, none, []⟩, ⟨1, true, some "sB", []⟩, ⟨2, false, none, []⟩]⟩
    0 ⟨0, true, none, []⟩ joinAlice 5 "s1" "alice"
    (by decide) rfl (by decide) (by decide)
  refine ⟨?_, h.2.1, ?_, h.2.2.2.2.1⟩
  · rw [h.1]; decide
  · rw [h.2.2.2.1]; decide

/-! ### Preservation of the session-binding invariant -/

theorem validUsername_length {j : Option JVal} {u : String}
    (h : validUsername j = some u) : 2 ≤ u.length := by
  cases j with
  | none => simp [validUsername] at h
  | some v =>
    cases v with
    | str s =>
      by_cases hc : s = "" ∨ s.length < 2
      · simp [validUsername, hc] at h
      · simp [validUsername, hc] at h
        push_neg at hc
        subst h
        omega
    | other t => simp [validUsername] at h

theorem inv_map (st : ServerState) (f : Conn → Conn)
    (hcid : ∀ x, (f x).cid = x.cid)
    (hsid : ∀ x, (f x).sessionId = x.sessionId)
    (h : Inv st) : Inv { st with conns := st.conns.map f } := by
  obtain ⟨hb, hs, hc⟩ := h
  refine ⟨?_, ?_, ?_⟩
  · intro c' hc' sid hsid'
    obtain ⟨x, hx, rfl⟩ := List.mem_map.mp hc'
    exact hb x hx sid (by rw [← hsid x]; exact hsid')
  · intro c1' h1 c2' h2 sid e1 e2
    obtain ⟨x1, hx1, rfl⟩ := List.mem_map.mp h1
    obtain ⟨x2, hx2, rfl⟩ := List.mem_map.mp h2
    have hx12 : x1 = x2 := hs x1 hx1 x2 hx2 sid
      (by rw [← hsid x1]; exact e1) (by rw [← hsid x2]; exact e2)
    rw [hx12]
  · intro c1' h1 c2' h2 he
    obtain ⟨x1, hx1, rfl⟩ := List.mem_map.mp h1
    obtain ⟨x2, hx2, rfl⟩ := List.mem_map.mp h2
    have hx12 : x1 = x2 := hc x1 hx1 x2 hx2
      (by rw [← hcid x1, ← hcid x2]; exact he)
    rw [hx12]

theorem inv_sendTo (st : ServerState) (cid : Nat) (f : Frame) (h : Inv st) :
    Inv (sendTo st cid f) :=
  inv_map st _ (fun x => by by_cases hx : x.cid = cid <;> simp [hx])
    (fun x => by by_cases hx : x.cid = cid <;> simp [hx]) h

theorem inv_broadcast (st : ServerState) (f : Frame) (h : Inv st) :
    Inv (broadcast st f) :=
  inv_map st _ (fun x => by by_cases hx : x.isOpen <;> simp [hx])
    (fun x => by by_cases hx : x.isOpen <;> simp [hx]) h

theorem inv_filter (st : ServerState) (p : Conn → Bool) (h : Inv st) :
    Inv { st with conns := st.conns.filter p } := by
  obtain ⟨hb, hs, hc⟩ := h
  exact ⟨fun c hcm sid hsid => hb c (List.mem_of_mem_filter hcm) sid hsid,
    fun c1 h1 c2 h2 sid e1 e2 =>
      hs c1 (List.mem_of_mem_filter h1) c2 (List.mem_of_mem_filter h2) sid e1 e2,
    fun c1 h1 c2 h2 e =>
      hc c1 (List.mem_of_mem_filter h1) c2 (List.mem_of_mem_filter h2) e⟩

theorem inv_handleChat (st : ServerState) (cid : Nat) (sid : String)
    (content : Option JVal) (now : Nat) (uuid : String) (h : Inv st) :
    Inv (handleChat st cid sid content now uuid) := by
  unfold handleChat
  by_cases hrc : (rateCheck (mapGet st.rateLimitMap sid) now).2 = false
  · simp only [hrc, if_pos]
    exact inv_sendTo _ _ _ h
  · simp only [hrc, if_neg, Bool.false_eq_true, ite_false]
    cases hvc : validContent content with
    | none => exact inv_sendTo _ _ _ h
    | some body => exact inv_broadcast _ _ h

theorem inv_joinCore (st : ServerState) (cid : Nat) (u : String) (now : Nat)
    (uuid : String) (h : Inv st) (hfresh : getSession st.sessions uuid = none)
    (hu : 2 ≤ u.length) :
    Inv { st with
            sessions := createSession st.sessions uuid u now,
            conns := st.conns.map (fun c =>
              if c.cid = cid then { c with sessionId := some uuid } else c) } := by
  obtain ⟨hb, hs, hc⟩ := h
  refine ⟨?_, ?_, ?_⟩
  · intro c' hc' sid hsid'
    obtain ⟨x, hx, rfl⟩ := List.mem_map.mp hc'
    by_cases hxc : x.cid = cid
    · have hsu : sid = uuid := by
        simp [hxc] at hsid'
        exact hsid'.symm
      rw [hsu]
      refine ⟨⟨uuid, u, now⟩, ?_, hu⟩
      show mapGet (mapSet st.sessions uuid ⟨uuid, u, now⟩) uuid = _
      exact mapGet_mapSet_self _ _ _
    · simp only [if_neg hxc] at hsid'
      obtain ⟨sess, hg, hlen⟩ := hb x hx sid hsid'
      have hne : sid ≠ uuid := by
        intro e
        subst e
        rw [hg] at hfresh
        simp at hfresh
      refine ⟨sess, ?_, hlen⟩
      show mapGet (mapSet st.sessions uuid ⟨uuid, u, now⟩) sid = some sess
      rw [mapGet_mapSet_ne _ hne]
      exact hg
  · intro c1' h1 c2' h2 sid e1 e2
    obtain ⟨x1, hx1, rfl⟩ := List.mem_map.mp h1
    obtain ⟨x2, hx2, rfl⟩ := List.mem_map.mp h2
    by_cases hx1c : x1.cid = cid <;> by_cases hx2c : x2.cid = cid
    · have hx12 : x1 = x2 := hc x1 hx1 x2 hx2 (by rw [hx1c, hx2c])
      rw [hx12]
    · exfalso
      have e1' : sid = uuid := by simp [hx1c] at e1; exact e1.symm
      have e2' : x2.sessionId = some sid := by simpa [hx2c] using e2
      rw [e1'] at e2'
      obtain ⟨sess, hg, _⟩ := hb x2 hx2 _ e2'
      rw [hg] at hfresh
      simp at hfresh
    · exfalso
      have e2' : sid = uuid := by simp [hx2c] at e2; exact e2.symm
      have e1' : x1.sessionId = some sid := by simpa [hx1c] using e1
      rw [e2'] at e1'
      obtain ⟨sess, hg, _⟩ := hb x1 hx1 _ e1'
      rw [hg] at hfresh
      simp at hfresh
    · have e1' : x1.sessionId = some sid := by simpa [hx1c] using e1
      have e2' : x2.sessionId = some sid := by simpa [hx2c] using e2
      have hx12 : x1 = x2 := hs x1 hx1 x2 hx2 sid e1' e2'
      rw [hx12]
  · intro c1' h1 c2' h2 he
    obtain ⟨x1, hx1, rfl⟩ := List.mem_map.mp h1
    obtain ⟨x2, hx2, rfl⟩ := List.mem_map.mp h2
    have hcid1 : (if x1.cid = cid then { x1 with sessionId := some uuid } else x1).cid
        = x1.cid := by by_cases hx : x1.cid = cid <;> simp [hx]
    have hcid2 : (if x2.cid = cid then { x2 with sessionId := some uuid } else x2).cid
        = x2.cid := by by_cases hx : x2.cid = cid <;> simp [hx]
    have hx12 : x1 = x2 := hc x1 hx1 x2 hx2 (by rw [← hcid1, ← hcid2]; exact he)
    rw [hx12]

theorem inv_handleJoin (st : ServerState) (cid : Nat) (u : String) (now : Nat)
    (uuid : String) (h : Inv st) (hfresh : getSession st.sessions uuid = none)
    (hu : 2 ≤ u.length) : Inv (handleJoin st cid u now uuid) := by
  unfold handleJoin sendHistory
  exact inv_sendTo _ _ _ (inv_broadcast _ _ (inv_sendTo _ _ _
    (inv_joinCore st cid u now uuid h hfresh hu)))

theorem inv_addConn (st : ServerState) (cid : Nat) (h : Inv st)
    (hfree : ∀ c ∈ st.conns, c.cid ≠ cid) : Inv (addConn st cid) := by
  obtain ⟨hb, hs, hc⟩ := h
  refine ⟨?_, ?_, ?_⟩
  · intro c' hc' sid hsid'
    rcases List.mem_append.mp hc' with hold | hnew
    · exact hb c' hold sid hsid'
    · rw [List.mem_singleton.mp hnew] at hsid'
      simp at hsid'
  · intro c1 h1 c2 h2 sid e1 e2
    rcases List.mem_append.mp h1 with h1o | h1n
    · rcases List.mem_append.mp h2 with h2o | h2n
      · exact hs c1 h1o c2 h2o sid e1 e2
      · rw [List.mem_singleton.mp h2n] at e2
        simp at e2
    · rw [List.mem_singleton.mp h1n] at e1
      simp at e1
  · intro c1 h1 c2 h2 he
    rcases List.mem_append.mp h1 with h1o | h1n
    · rcases List.mem_append.mp h2 with h2o | h2n
      · exact hc c1 h1o c2 h2o he
      · exfalso
        rw [List.mem_singleton.mp h2n] at he
        exact hfree c1 h1o he
    · rcases List.mem_append.mp h2 with h2o | h2n
      · exfalso
        rw [List.mem_singleton.mp h1n] at he
        exact hfree c2 h2o he.symm
      · rw [List.mem_singleton.mp h1n, List.mem_singleton.mp h2n]

theorem inv_closeCore (st : ServerState) (cid : Nat) (c : Conn)
    (hfind : st.conns.find? (fun x => x.cid == cid) = some c)
    (sid : String) (hsid : c.sessionId = some sid) (h : Inv st) :
    Inv { st with
            conns := st.conns.filter (fun x => !(x.cid == cid)),
            sessions := removeSession st.sessions sid } := by
  obtain ⟨hb, hs, hc⟩ := h
  have hcmem : c ∈ st.conns := List.mem_of_find?_eq_some hfind
  have hccid : c.cid = cid := by simpa using List.find?_some hfind
  refine ⟨?_, ?_, ?_⟩
  · intro x hx sid' hx'
    have hxmem : x ∈ st.conns := List.mem_of_mem_filter hx
    have hxcid : x.cid ≠ cid := by simpa using List.of_mem_filter hx
    obtain ⟨sess, hg, hlen⟩ := hb x hxmem sid' hx'
    have hne : sid' ≠ sid := by
      intro e
      subst e
      have hxc : x = c := hs x hxmem c hcmem sid' hx' hsid
      rw [hxc] at hxcid
      exact hxcid hccid
    refine ⟨sess, ?_, hlen⟩
    show mapGet (mapDelete st.sessions sid) sid' = some sess
    rw [mapGet_mapDelete_ne _ hne]
    exact hg
  · intro c1 h1 c2 h2 sid' e1 e2
    exact hs c1 (List.mem_of_mem_filter h1) c2 (List.mem_of_mem_filter h2) sid' e1 e2
  · intro c1 h1 c2 h2 he
    exact hc c1 (List.mem_of_mem_filter h1) c2 (List.mem_of_mem_filter h2) he

theorem inv_handleClose (st : ServerState) (cid : Nat) (h : Inv st) :
    Inv (handleClose st cid) := by
  cases hfind : st.conns.find? (fun x => x.cid == cid) with
  | none =>
    have he : handleClose st cid = st := by
      unfold handleClose
      rw [hfind]
    rw [he]
    exact h
  | some c =>
    cases hsid : c.sessionId with
    | none =>
      have he : handleClose st cid
          = { st with conns := st.conns.filter fun x => !(x.cid == cid) } := by
        unfold handleClose
        rw [hfind]
        simp [hsid]
      rw [he]
      exact inv_filter _ _ h
    | some sid =>
      cases huser : (getSession st.sessions sid).map Session.username with
      | none =>
        have he : handleClose st cid
            = { st with
                  conns := st.conns.filter fun x => !(x.cid == cid),
                  sessions := removeSession st.sessions sid } := by
          unfold handleClose
          rw [hfind]
          simp [hsid, huser]
        rw [he]
        exact inv_closeCore st cid c hfind sid hsid h
      | some u =>
        by_cases hu : u = ""
        · have he : handleClose st cid
              = { st with
                    conns := st.conns.filter fun x => !(x.cid == cid),
                    sessions := removeSession st.sessions sid } := by
            unfold handleClose
            rw [hfind]
            simp [hsid, huser, hu]
          rw [he]
          exact inv_closeCore st cid c hfind sid hsid h
        · have he : handleClose st cid
              = broadcast
                  { st with
                      conns := st.conns.filter fun x => !(x.cid == cid),
                      sessions := removeSession st.sessions sid }
                  (.presence "leave" u) := by
            unfold handleClose
            rw [hfind]
            simp [hsid, huser, hu]
          rw [he]
          exact inv_broadcast _ _ (inv_closeCore st cid c hfind sid hsid h)

theorem inv_handleFrame (st : ServerState) (cid : Nat) (p : Option InMsg)
    (now : Nat) (uuid : String) (h : Inv st)
    (hfresh : mapGet st.sessions uuid = none) :
    Inv (handleFrame st cid p now uuid) := by
  cases hfind : st.conns.find? (fun x => x.cid == cid) with
  | none =>
    have he : handleFrame st cid p now uuid = st := by
      unfold handleFrame
      rw [hfind]
    rw [he]
    exact h
  | some c =>
    cases p with
    | none =>
      have he : handleFrame st cid none now uuid
          = sendTo st cid (.error "Invalid message format") := by
        unfold handleFrame
        rw [hfind]
      rw [he]
      exact inv_sendTo _ _ _ h
    | some m =>
      cases hty : typeField m.type with
      | none =>
        have he : handleFrame st cid (some m) now uuid
            = sendTo st cid (.error "Missing or invalid type") := by
          unfold handleFrame
          rw [hfind]
          simp [hty]
        rw [he]
        exact inv_sendTo _ _ _ h
      | some t =>
        by_cases hj : t = "join"
        · cases hbnd : c.sessionId with
          | some sid =>
            have he : handleFrame st cid (some m) now uuid
                = sendTo st cid (.error "Already joined") := by
              unfold handleFrame
              rw [hfind]
              simp [hty, hj, hbnd]
            rw [he]
            exact inv_sendTo _ _ _ h
          | none =>
            cases hvu : validUsername m.username with
            | none =>
              have he : handleFrame st cid (some m) now uuid
                  = sendTo st cid (.error "Invalid username") := by
                unfold handleFrame
                rw [hfind]
                simp [hty, hj, hbnd, hvu]
              rw [he]
              exact inv_sendTo _ _ _ h
            | some u =>
              have he : handleFrame st cid (some m) now uuid
                  = handleJoin st cid u now uuid := by
                unfold handleFrame
                rw [hfind]
                simp [hty, hj, hbnd, hvu]
              rw [he]
              exact inv_handleJoin st cid u now uuid h hfresh
                (validUsername_length hvu)
        · by_cases hmsg : t = "message"
          · cases hbnd : c.sessionId with
            | some sid =>
              have he : handleFrame st cid (some m) now uuid
                  = handleChat st cid sid m.content now uuid := by
                unfold handleFrame
                rw [hfind]
                simp [hty, hj, hmsg, hbnd]
              rw [he]
              exact inv_handleChat _ _ _ _ _ _ h
            | none =>
              have he : handleFrame st cid (some m) now uuid
                  = sendTo st cid (.error "Unknown or unauthorized event") := by
                unfold handleFrame
                rw [hfind]
                simp [hty, hj, hmsg, hbnd]
              rw [he]
              exact inv_sendTo _ _ _ h
          · have he : handleFrame st cid (some m) now uuid
                = sendTo st cid (.error "Unknown or unauthorized event") := by
              unfold handleFrame
              rw [hfind]
              simp [hty, hj, hmsg]
            rw [he]
            exact inv_sendTo _ _ _ h

/-- Every reachable server state satisfies the session-binding invariant. -/
theorem reachable_inv {st : ServerState} (h : Reachable st) : Inv st := by
  induction h with
  | init =>
    exact ⟨fun c hc => by simp [initialState] at hc,
      fun c hc => by simp [initialState] at hc,
      fun c hc => by simp [initialState] at hc⟩
  | connect hr hfree ih => exact inv_addConn _ _ ih hfree
  | frame hr hfresh ih => exact inv_handleFrame _ _ _ _ _ ih hfresh
  | close hr ih => exact inv_handleClose _ _ ih

/-! ### C10: bound session ids stay registered until close -/

/-- C10: in every reachable state, a connection's bound session id maps to a
registered session whose username passed join validation — so the
displayName lookup during message handling succeeds and the "unknown"
fallback is unreachable — and closing that connection removes exactly that
session and broadcasts a presence leave event carrying the session's
username to the remaining open connections. -/
theorem bound_session_registered_until_close
    (st : ServerState) (h : Reachable st) (c : Conn) (hc : c ∈ st.conns)
    (sid : String) (hsid : c.sessionId = some sid) :
    ∃ sess, getSession st.sessions sid = some sess ∧
      sess.username ≠ "" ∧
      ((getSession st.sessions sid).map Session.username).getD "unknown"
        = sess.username ∧
      (handleClose st c.cid).sessions = removeSession st.sessions sid ∧
      (handleClose st c.cid).conns
        = (st.conns.filter (fun x => !(x.cid == c.cid))).map
            (fun x => if x.isOpen then
                { x with sent := x.sent ++ [.presence "leave" sess.username] }
              else x) := by
  obtain ⟨hb, hs, hcid⟩ := reachable_inv h
  obtain ⟨sess, hg, hlen⟩ := hb c hc sid hsid
  have hne : sess.username ≠ "" := by
    intro e
    rw [e] at hlen
    simp at hlen
  have hfs : st.conns.find? (fun x => x.cid == c.cid) = some c := by
    have hsome : (st.conns.find? (fun x => x.cid == c.cid)).isSome := by
      rw [List.find?_isSome]
      exact ⟨c, hc, by simp⟩
    obtain ⟨x, hx⟩ := Option.isSome_iff_exists.mp hsome
    have hxm : x ∈ st.conns := List.mem_of_find?_eq_some hx
    have hxc : x.cid = c.cid := by simpa using List.find?_some hx
    have hxeq : x = c := hcid x hxm c hc hxc
    rw [hx, hxeq]
  have he : handleClose st c.cid
      = broadcast
          { st with
              conns := st.conns.filter fun x => !(x.cid == c.cid),
              sessions := removeSession st.sessions sid }
          (.presence "leave" sess.username) := by
    unfold handleClose
    rw [hfs]
    simp [hsid, hg, hne]
  exact ⟨sess, hg, hne, by rw [hg]; rfl, by rw [he]; rfl, by rw [he]; rfl⟩

/-- Witness for C10 on the concrete two-step trace: connect, then join as
"alice" (session id "s1"). -/
theorem bound_session_registered_until_close_witness :
    ∃ sess, getSession aliceJoined.sessions "s1" = some sess ∧
      sess.username ≠ "" ∧
      ((getSession aliceJoined.sessions "s1").map Session.username).getD "unknown"
        = sess.username ∧
      (handleClose aliceJoined
          (⟨0, true, some "s1",
            [.welcome "s1", .presence "join" "alice", .history []]⟩ : Conn).cid).sessions
        = removeSession aliceJoined.sessions "s1" ∧
      (handleClose aliceJoined
          (⟨0, true, some "s1",
            [.welcome "s1", .presence "join" "alice", .history []]⟩ : Conn).cid).conns
        = (aliceJoined.conns.filter (fun x =>
              !(x.cid == (⟨0, true, some "s1",
                [.welcome "s1", .presence "join" "alice",
                 .history []]⟩ : Conn).cid))).map
            (fun x => if x.isOpen then
                { x with sent := x.sent ++ [.presence "leave" sess.username] }
              else x) :=
  bound_session_registered_until_close aliceJoined
    (Reachable.frame (Reachable.connect Reachable.init (by decide)) (by decide))
    ⟨0, true, some "s1", [.welcome "s1", .presence "join" "alice", .history []]⟩
    (by decide) "s1" rfl

end Vrbll
